import Mathlib

/-!
Shallow embedding of the native capture core of PCAPdroid
(`src/app/src/main/jni/vpnproxy-jni/vpnproxy.c`), together with proofs about
the DNS policy gate, connection accounting, batches, the DPI driver, the pcap
host buffer, the tun write-error handling and the housekeeping scheduler.

Conventions of the embedding:
* machine integers are modelled as `Nat` (they are counters or small fields
  that never overflow in the properties below); `uid` is `Int` since the C
  code compares it against negative sentinels;
* C strings are modelled as `List Char`;
* fallible environment calls (calloc, DPI library results, uid resolution,
  the current time) are passed in explicitly as environment records;
* process-global C variables (`new_dns_server`, `dumper_socket`,
  `send_header`, `last_conn_blocked`) are carried inside the proxy state
  record, as the packet loop is single threaded;
* writes to the pcap collector socket and deliveries of the host pcap buffer
  are recorded in ghost lists so that theorems can talk about them.
-/

namespace Vpnproxy

/-! ## Constants (vpnproxy.c lines 30-42) -/

def CAPTURE_STATS_UPDATE_FREQUENCY_MS : Nat := 300
def CONNECTION_DUMP_UPDATE_FREQUENCY_MS : Nat := 1000
def MAX_JAVA_DUMP_DELAY_MS : Nat := 1000
def MAX_DPI_PACKETS : Nat := 12
def MAX_HOST_LRU_SIZE : Nat := 128
def JAVA_PCAP_BUFFER_SIZE : Nat := 512 * 1024
def PERIODIC_PURGE_TIMEOUT_MS : Nat := 5000

def DNS_FLAGS_MASK : Nat := 0x8000
def DNS_TYPE_REQUEST : Nat := 0x0000

def IPPROTO_TCP : Nat := 6
def IPPROTO_UDP : Nat := 17

/-- nDPI protocol identifiers used by the switch in `end_ndpi_detection`. -/
def NDPI_PROTOCOL_UNKNOWN : Nat := 0
def NDPI_PROTOCOL_DNS : Nat := 5
def NDPI_PROTOCOL_HTTP : Nat := 7
def NDPI_PROTOCOL_TLS : Nat := 91

/-- Embedding of `sizeof(struct dns_packet)`: the packed struct holds six `uint16_t`
fields plus the `initial_dot` byte (the flexible `queries[]` member
contributes nothing), i.e. 13 bytes. -/
def dns_packet_sizeof : Nat := 13

/-- Embedding of `ntohs` on the little-endian Android hosts the code runs on: swap the two
bytes of a 16-bit value. -/
def ntohs (x : Nat) : Nat := (x % 256) * 256 + (x / 256 % 256)

/-! ## 5-tuples, packets, addresses -/

/-- A host-name LRU / known-DNS-servers key: one concrete IP address.
The C code keys on a `zdtun_ip_t` union discriminated by the IP version. -/
inductive IpKey where
  | v4 (addr : Nat)
  | v6 (addr : List Nat)
deriving DecidableEq, Repr

/-- Embedding of `zdtun_5tuple_t`. The `src_ip`/`dst_ip` unions are modelled as a pair of
fields; the code only ever reads the member selected by `ipver`.
Ports are stored in network byte order, exactly as in the C struct. -/
structure Zdtun5Tuple where
  ipver : Nat
  ipproto : Nat
  src_ip4 : Nat
  src_ip6 : List Nat
  dst_ip4 : Nat
  dst_ip6 : List Nat
  src_port : Nat
  dst_port : Nat
deriving DecidableEq, Repr

/-- The IP key the code builds from a tuple's destination
(`addr.ipv4 = tuple->dst_ip.ip4` for v4, the 16 v6 bytes otherwise). -/
def tuple_dst_key (t : Zdtun5Tuple) : IpKey :=
  if t.ipver = 4 then .v4 t.dst_ip4 else .v6 t.dst_ip6

/-- The part of a parsed `zdtun_pkt_t` that `check_dns_req_allowed` and the
packet-dispatch code read: L7 length, the 16-bit value the code reads as
`((struct dns_packet*)pkt->l7)->flags`, and the two TCP flags tested by the
established-connection check. -/
structure ZdtunPkt where
  tuple : Zdtun5Tuple
  l7_len : Nat
  dns_flags : Nat
  tcp_syn : Bool
  tcp_ack : Bool
deriving DecidableEq, Repr

/-! ## Per-connection data (`conn_data_t`) -/

structure L7Proto where
  app_protocol : Nat
  master_protocol : Nat
deriving DecidableEq, Repr

structure ConnData where
  sent_pkts : Nat
  rcvd_pkts : Nat
  sent_bytes : Nat
  rcvd_bytes : Nat
  first_seen : Nat
  last_seen : Nat
  uid : Int
  status : Nat
  /-- A value `none` models the field never having been assigned from the
  `proxy->incr_id` counter (the C field is zero from `calloc`). -/
  incr_id : Option Nat
  pending_notification : Bool
  /-- liveness of the three DPI allocations (`ndpi_flow`, `src_id`, `dst_id`) -/
  ndpi_flow : Bool
  src_id : Bool
  dst_id : Bool
  l7proto : L7Proto
  info : Option (List Char)
  url : Option (List Char)
deriving DecidableEq, Repr

/-- The zero state `calloc(1, sizeof(conn_data_t))` produces. -/
def conn_data_zero : ConnData :=
  { sent_pkts := 0, rcvd_pkts := 0, sent_bytes := 0, rcvd_bytes := 0
    first_seen := 0, last_seen := 0, uid := 0, status := 0
    incr_id := none, pending_notification := false
    ndpi_flow := false, src_id := false, dst_id := false
    l7proto := { app_protocol := 0, master_protocol := 0 }
    info := none, url := none }

/-- Embedding of `free_ndpi`: release the three DPI allocations and null the pointers. -/
def free_ndpi (d : ConnData) : ConnData :=
  { d with ndpi_flow := false, src_id := false, dst_id := false }

/-! ## Proxy state (`vpnproxy_data_t` plus the process globals) -/

structure CaptureStats where
  sent_pkts : Nat
  rcvd_pkts : Nat
  sent_bytes : Nat
  rcvd_bytes : Nat
  new_stats : Bool
  last_update_ms : Nat
deriving DecidableEq, Repr

structure VpnproxyData where
  vpn_dns : Nat
  dns_server : Nat
  ipv6_dns_server : List Nat
  known_dns_servers : List IpKey
  ip_to_host : List (IpKey × List Char)
  incr_id : Nat
  num_dns_requests : Nat
  num_dropped_connections : Nat
  last_conn_blocked : Bool
  last_pkt : Option ZdtunPkt
  capture_stats : CaptureStats
  /-- ids of the entries staged in `proxy->new_conns` -/
  new_conns : List Nat
  /-- ids of the entries staged in `proxy->conns_updates` -/
  conns_updates : List Nat
  /-- Whether `proxy->java_dump.buffer != NULL` -/
  java_dump_buffer : Bool
  java_dump_idx : Nat
  java_last_dump_ms : Nat
  /-- ghost: sizes of the buffers delivered by `dumpPcapData` -/
  java_flushes : List Nat
  now_ms : Nat
  /-- process global `dumper_socket > 0` -/
  dumper_socket : Bool
  /-- process global `send_header` -/
  send_header : Bool
  /-- ghost: number of pcap global headers sent to the collector socket -/
  collector_hdr_count : Nat
  /-- ghost: payload sizes of the pcap records sent to the collector socket -/
  collector_writes : List Nat
  /-- process global `new_dns_server` -/
  new_dns_server : Nat
deriving DecidableEq, Repr

/-! ## Host LRU (C's `ip_lru_*`; utils.c is not part of src/) -/

/-- Modelled from the spec: the Host LRU `find` (`ip_lru_find` lives in the
repository's utils.c, which is not under src/). Spec 4.1: `find(ip)` returns
the stored name or none and promotes the entry to most recently used. The
list head is the MRU end. -/
def ip_lru_find (lru : List (IpKey × List Char)) (ip : IpKey) :
    Option (List Char) × List (IpKey × List Char) :=
  match lru.find? (fun e => e.1 = ip) with
  | none => (none, lru)
  | some e => (some e.2, e :: lru.filter (fun x => ¬(x.1 = ip)))

/-- Modelled from the spec: the Host LRU `add` (`ip_lru_add` lives in the
repository's utils.c, which is not under src/). Spec 4.1: insert or refresh
at the MRU end; when the size exceeds the capacity, evict the LRU entry. -/
def ip_lru_add (lru : List (IpKey × List Char)) (ip : IpKey) (name : List Char) :
    List (IpKey × List Char) :=
  ((ip, name) :: lru.filter (fun x => ¬(x.1 = ip))).take MAX_HOST_LRU_SIZE

/-! ## Reportability filter -/

/-- Embedding of `shouldIgnoreConn` (vpnproxy.c:418): internal communications towards the
tun-side DNS address on a port other than 53 are not reported. -/
def shouldIgnoreConn (proxy : VpnproxyData) (tuple : Zdtun5Tuple) : Bool :=
  tuple.ipver = 4 ∧ tuple.dst_ip4 = proxy.vpn_dns ∧ ntohs tuple.dst_port ≠ 53

/-! ## DNS policy gate (`check_dns_req_allowed`, vpnproxy.c:647-722) -/

/-- result of the gate: the packet-level decision, whether
`zdtun_conn_dnat` was invoked, and the updated proxy state. -/
structure DnsReqResult where
  allowed : Bool
  dnat_called : Bool
  proxy : VpnproxyData
deriving Repr

/-- Embedding of `is_internal_dns` (vpnproxy.c:662). -/
def is_internal_dns_dest (proxy : VpnproxyData) (tuple : Zdtun5Tuple) : Bool :=
  tuple.ipver = 4 ∧ tuple.dst_ip4 = proxy.vpn_dns

/-- Embedding of `is_dns_server` after the known-servers probe (vpnproxy.c:663-688).
The ptree holds exact /32 and /128 entries, so the match is membership. -/
def is_dns_server_dest (proxy : VpnproxyData) (tuple : Zdtun5Tuple) : Bool :=
  is_internal_dns_dest proxy tuple
    ∨ (tuple.ipver = 6 ∧ tuple.dst_ip6 = proxy.ipv6_dns_server)
    ∨ proxy.known_dns_servers.contains (tuple_dst_key tuple)

/-- The DNS-server reload at the top of `check_dns_req_allowed`
(vpnproxy.c:650-660): install a pending `new_dns_server` as the DNAT target
and clear the flag. -/
def reload_dns_server (proxy : VpnproxyData) : VpnproxyData :=
  if proxy.new_dns_server ≠ 0 then
    { proxy with dns_server := proxy.new_dns_server, new_dns_server := 0 }
  else proxy

/-- Body of `check_dns_req_allowed` after the reload step
(vpnproxy.c:662-721). -/
def check_dns_req_allowed_core (proxy : VpnproxyData) (tuple : Zdtun5Tuple) :
    DnsReqResult :=
  if is_dns_server_dest proxy tuple = false then
    { allowed := true, dnat_called := false, proxy := proxy }
  else
    match proxy.last_pkt with
    | some pkt =>
      if tuple.ipproto = IPPROTO_UDP ∧ ntohs tuple.dst_port = 53 then
        if dns_packet_sizeof ≤ pkt.l7_len then
          if (pkt.dns_flags &&& DNS_FLAGS_MASK) ≠ DNS_TYPE_REQUEST then
            { allowed := true, dnat_called := false, proxy := proxy }
          else
            { allowed := true
              dnat_called := is_internal_dns_dest proxy tuple
              proxy := { proxy with num_dns_requests := proxy.num_dns_requests + 1 } }
        else
          { allowed := false, dnat_called := false, proxy := proxy }
      else
        { allowed := false, dnat_called := false, proxy := proxy }
    | none =>
      { allowed := false, dnat_called := false, proxy := proxy }

/-- Embedding of `check_dns_req_allowed` (vpnproxy.c:647-722): reload a pending DNS
server, then decide on the (possibly updated) proxy state. -/
def check_dns_req_allowed (proxy : VpnproxyData) (tuple : Zdtun5Tuple) :
    DnsReqResult :=
  check_dns_req_allowed_core (reload_dns_server proxy) tuple

/-! ## DPI driver (`end_ndpi_detection` / `process_ndpi_packet`) -/

/-- The nDPI flow fields the core reads when detection concludes
(vpnproxy.c:321-374). They are produced by the DPI library, so they enter
the model as an environment record. -/
structure NdpiFlow where
  host_server_name : List Char
  dns_rsp_type : Nat
  dns_rsp_addr_ip4 : Nat
  dns_rsp_addr_ip6 : List Nat
  http_url : Option (List Char)
  tls_client_requested_server_name : List Char
deriving DecidableEq, Repr

/-- Embedding of `strndup(s, 256)`. -/
def strndup256 (s : List Char) : List Char := s.take 256

/-- Embedding of `strchr(info, '.') != NULL`. -/
def contains_dot (s : List Char) : Bool := s.contains '.'

/-- The first byte of an address buffer (`addr.u6_addr8[0]`). -/
def byte0 (bs : List Nat) : Nat := bs.headD 0

/-- The classification `end_ndpi_detection` settles on (vpnproxy.c:308-316):
ask `ndpi_detection_giveup` for a guess while the app protocol is still
unknown, then fill `master_protocol` from `app_protocol` when it is zero. -/
def resolved_l7 (guess : L7Proto) (data : ConnData) : L7Proto :=
  let l7 := if data.l7proto.app_protocol = NDPI_PROTOCOL_UNKNOWN then guess
            else data.l7proto
  if l7.master_protocol = 0 then
    { l7 with master_protocol := l7.app_protocol }
  else l7

/-- Embedding of `end_ndpi_detection` (vpnproxy.c:302-377). `flow` holds the current
field values of `data->ndpi_flow` (meaningful only when `data.ndpi_flow` is
live), `guess` the result of `ndpi_detection_giveup`. -/
def end_ndpi_detection (flow : NdpiFlow) (guess : L7Proto)
    (proxy : VpnproxyData) (data : ConnData) : VpnproxyData × ConnData :=
  if data.ndpi_flow = false then (proxy, data)
  else
    let l7 := resolved_l7 guess data
    let data := { data with l7proto := l7 }
    let pd :=
      if l7.master_protocol = NDPI_PROTOCOL_DNS then
        if flow.host_server_name ≠ [] then
          let info := strndup256 flow.host_server_name
          let data := { data with info := some info }
          if contains_dot info then
            if flow.dns_rsp_type = 0x1 ∧ flow.dns_rsp_addr_ip4 ≠ 0 then
              ({ proxy with ip_to_host :=
                   ip_lru_add proxy.ip_to_host (.v4 flow.dns_rsp_addr_ip4) info },
               data)
            else if flow.dns_rsp_type = 0x1c
                ∧ byte0 flow.dns_rsp_addr_ip6 &&& 0xE0 = 0x20 then
              ({ proxy with ip_to_host :=
                   ip_lru_add proxy.ip_to_host (.v6 flow.dns_rsp_addr_ip6) info },
               data)
            else (proxy, data)
          else (proxy, data)
        else (proxy, data)
      else if l7.master_protocol = NDPI_PROTOCOL_HTTP then
        let data :=
          if flow.host_server_name ≠ [] then
            { data with info := some (strndup256 flow.host_server_name) }
          else data
        let data :=
          match flow.http_url with
          | some u => { data with url := some (strndup256 u) }
          | none => data
        (proxy, data)
      else if l7.master_protocol = NDPI_PROTOCOL_TLS then
        (proxy,
         if flow.tls_client_requested_server_name ≠ [] then
           { data with info := some (strndup256 flow.tls_client_requested_server_name) }
         else data)
      else (proxy, data)
    (pd.1, free_ndpi pd.2)

/-- The DPI library outputs consumed while processing one packet:
the classification returned by `ndpi_detection_process_packet`, the value of
`ndpi_extra_dissection_possible`, and the data `end_ndpi_detection` would
read if detection concludes now. -/
structure DpiPacketEnv where
  l7 : L7Proto
  extra_dissection_possible : Bool
  guess : L7Proto
  flow : NdpiFlow
deriving DecidableEq, Repr

/-- Embedding of `process_ndpi_packet` (vpnproxy.c:381-393). The packet counters were
already incremented by `account_packet` before this runs, as in the source. -/
def process_ndpi_packet (env : DpiPacketEnv) (proxy : VpnproxyData)
    (data : ConnData) : VpnproxyData × ConnData :=
  let giveup := MAX_DPI_PACKETS ≤ data.sent_pkts + data.rcvd_pkts
  let data := { data with l7proto := env.l7 }
  if giveup ∨ (env.l7.app_protocol ≠ NDPI_PROTOCOL_UNKNOWN
               ∧ env.extra_dissection_possible = false) then
    end_ndpi_detection env.flow env.guess proxy data
  else
    (proxy, data)

/-! ## PCAP framing (`pcap.c` helpers are not under src/) -/

/-- Modelled from the spec: `sizeof(struct pcaprec_hdr_s)` (pcap.h is not
under src/). The glossary fixes the classic libpcap per-record header as the
four 32-bit fields `ts_sec, ts_usec, caplen, origlen`, hence 16 bytes. -/
def pcaprec_hdr_sizeof : Nat := 16

/-- Modelled from the spec: the length written by `dump_pcap_rec` (pcap.c is
not under src/): one per-record header followed by the raw payload. -/
def dump_pcap_rec_len (size : Nat) : Nat := pcaprec_hdr_sizeof + size

/-- Embedding of `javaPcapDump` (vpnproxy.c:397-414): deliver the host buffer, reset the
write index, remember the flush time. -/
def javaPcapDump (proxy : VpnproxyData) : VpnproxyData :=
  { proxy with
    java_flushes := proxy.java_flushes ++ [proxy.java_dump_idx]
    java_dump_idx := 0
    java_last_dump_ms := proxy.now_ms }

/-- The host pcap buffer block of `account_packet` (vpnproxy.c:492-504):
flush when the record would not fit, then append unless it still does not
fit (which the code logs as an invalid buffer size). -/
def account_pcap_buffer (proxy : VpnproxyData) (size : Nat) : VpnproxyData :=
  let tot_size := size + pcaprec_hdr_sizeof
  let proxy :=
    if JAVA_PCAP_BUFFER_SIZE - proxy.java_dump_idx ≤ tot_size then
      javaPcapDump proxy
    else proxy
  if JAVA_PCAP_BUFFER_SIZE - proxy.java_dump_idx ≤ tot_size then
    proxy
  else
    { proxy with java_dump_idx := proxy.java_dump_idx + dump_pcap_rec_len size }

/-- The collector-socket block of `account_packet` (vpnproxy.c:506-518):
send the pcap global header once, then the record. -/
def account_collector (proxy : VpnproxyData) (size : Nat) : VpnproxyData :=
  let proxy :=
    if proxy.send_header then
      { proxy with collector_hdr_count := proxy.collector_hdr_count + 1
                   send_header := false }
    else proxy
  { proxy with collector_writes := proxy.collector_writes ++ [size] }

/-! ## Packet accounting (`account_packet`, vpnproxy.c:437-519) -/

/-- Environment of one `account_packet` call: direction, payload size, the
current time, the status reported by `zdtun_conn_get_status`, and the DPI
library outputs for this packet. -/
structure AccountEnv where
  from_tun : Bool
  size : Nat
  now : Nat
  status : Nat
  dpi : DpiPacketEnv
deriving DecidableEq, Repr

/-- The per-connection stats update at the top of `account_packet`
(vpnproxy.c:456-466): direction-split counters, `last_seen`, `status`. -/
def account_conn_counters (env : AccountEnv) (data : ConnData) : ConnData :=
  let data :=
    if env.from_tun then
      { data with sent_pkts := data.sent_pkts + 1
                  sent_bytes := data.sent_bytes + env.size }
    else
      { data with rcvd_pkts := data.rcvd_pkts + 1
                  rcvd_bytes := data.rcvd_bytes + env.size }
  { data with last_seen := env.now, status := env.status }

/-- The DPI step of `account_packet` (vpnproxy.c:468-469): feed the packet
to nDPI while the flow handle is live. -/
def account_dpi (env : AccountEnv) (proxy : VpnproxyData) (data : ConnData) :
    VpnproxyData × ConnData :=
  if data.ndpi_flow then process_ndpi_packet env.dpi proxy data
  else (proxy, data)

/-- The two pcap sink blocks of `account_packet` (vpnproxy.c:492-518). -/
def account_sinks (env : AccountEnv) (proxy : VpnproxyData) : VpnproxyData :=
  let proxy := if proxy.java_dump_buffer then account_pcap_buffer proxy env.size
               else proxy
  if proxy.dumper_socket then account_collector proxy env.size
  else proxy

/-- Embedding of `account_packet` (vpnproxy.c:437-519). `id` identifies the connection
(the C code passes the `zdtun_conn_t*`, used only as the batch entry). -/
def account_packet (env : AccountEnv) (id : Nat) (tuple : Zdtun5Tuple)
    (proxy : VpnproxyData) (data : ConnData) : VpnproxyData × ConnData :=
  let pd := account_dpi env proxy (account_conn_counters env data)
  let proxy := pd.1
  let data := pd.2
  if shouldIgnoreConn proxy tuple then
    (proxy, data)
  else
    let cs := proxy.capture_stats
    let cs :=
      if env.from_tun then
        { cs with sent_pkts := cs.sent_pkts + 1
                  sent_bytes := cs.sent_bytes + env.size }
      else
        { cs with rcvd_pkts := cs.rcvd_pkts + 1
                  rcvd_bytes := cs.rcvd_bytes + env.size }
    let proxy := { proxy with capture_stats := { cs with new_stats := true } }
    let pd :=
      if data.pending_notification = false then
        ({ proxy with conns_updates := proxy.conns_updates ++ [id] },
         { data with pending_notification := true })
      else (proxy, data)
    let proxy := pd.1
    let data := pd.2
    (account_sinks env proxy, data)

/-! ## New connections (`handle_new_connection`, vpnproxy.c:551-616) -/

/-- Environment of one `handle_new_connection` call: the outcome of the four
`calloc`s, the resolved uid and the current time. -/
structure NewConnEnv where
  calloc_data_ok : Bool
  calloc_flow_ok : Bool
  calloc_src_ok : Bool
  calloc_dst_ok : Bool
  uid : Int
  now : Nat
deriving DecidableEq, Repr

/-- Embedding of `handle_new_connection` (vpnproxy.c:551-616). Returns the updated proxy,
the user data attached to the connection (`none` when the connection is
rejected) and the callback's return value (non-zero rejects). -/
def handle_new_connection (env : NewConnEnv) (id : Nat)
    (proxy : VpnproxyData) (tuple : Zdtun5Tuple) :
    VpnproxyData × Option ConnData × Nat :=
  let g := check_dns_req_allowed proxy tuple
  let proxy := g.proxy
  if g.allowed = false then
    ({ proxy with last_conn_blocked := true }, none, 1)
  else if env.calloc_data_ok = false then
    (proxy, none, 1)
  else
    let d := conn_data_zero
    let d := { d with ndpi_flow := env.calloc_flow_ok }
    let d := if env.calloc_flow_ok = false then free_ndpi d else d
    let d := { d with src_id := env.calloc_src_ok }
    let d := if env.calloc_src_ok = false then free_ndpi d else d
    let d := { d with dst_id := env.calloc_dst_ok }
    let d := if env.calloc_dst_ok = false then free_ndpi d else d
    let d := { d with first_seen := env.now, last_seen := env.now, uid := env.uid }
    let fl := ip_lru_find proxy.ip_to_host (tuple_dst_key tuple)
    let proxy := { proxy with ip_to_host := fl.2 }
    let d := { d with info := fl.1 }
    if shouldIgnoreConn proxy tuple = false then
      let d := { d with incr_id := some proxy.incr_id
                        pending_notification := true }
      let proxy := { proxy with incr_id := proxy.incr_id + 1
                                new_conns := proxy.new_conns ++ [id] }
      (proxy, some d, 0)
    else
      (proxy, some d, 0)

/-! ## Connection close (`destroy_connection`, vpnproxy.c:620-638) -/

/-- Environment of one `destroy_connection` call: the final status and the
DPI outputs `end_ndpi_detection` reads. -/
structure CloseEnv where
  status : Nat
  dpi : DpiPacketEnv
deriving DecidableEq, Repr

/-- Embedding of `destroy_connection` (vpnproxy.c:620-638). -/
def destroy_connection (env : CloseEnv) (id : Nat) (tuple : Zdtun5Tuple)
    (proxy : VpnproxyData) (data : ConnData) : VpnproxyData × ConnData :=
  let pd := end_ndpi_detection env.dpi.flow env.dpi.guess proxy data
  let proxy := pd.1
  let data := { pd.2 with status := env.status }
  if data.pending_notification = false ∧ shouldIgnoreConn proxy tuple = false then
    ({ proxy with conns_updates := proxy.conns_updates ++ [id] },
     { data with pending_notification := true })
  else
    (proxy, data)

/-! ## tun writes (`net2tun`, vpnproxy.c:738-768) -/

def ENOBUFS : Nat := 105
def EIO : Nat := 5

structure Net2tunResult where
  running : Bool
  rv : Int
deriving DecidableEq, Repr

/-- Embedding of `net2tun` (vpnproxy.c:738-768). `wr_rv` and `wr_errno` are the result of
the `write` on the tun fd. -/
def net2tun (running : Bool) (pkt_size : Nat) (wr_rv : Int) (wr_errno : Nat) :
    Net2tunResult :=
  if running = false then
    { running := running, rv := 0 }
  else if wr_rv < 0 then
    if wr_errno = ENOBUFS then
      { running := running, rv := wr_rv }
    else if wr_errno = EIO then
      { running := false, rv := wr_rv }
    else
      { running := false, rv := wr_rv }
  else if wr_rv ≠ (pkt_size : Int) then
    { running := running, rv := -1 }
  else
    { running := running, rv := 0 }

/-! ## Packet dispatch in the loop (`run_tun`, vpnproxy.c:1142-1202) -/

/-- Embedding of `is_tcp_established` (vpnproxy.c:1167): TCP and not a bare SYN. -/
def is_tcp_established (pkt : ZdtunPkt) : Bool :=
  pkt.tuple.ipproto = IPPROTO_TCP ∧ (pkt.tcp_syn = false ∨ pkt.tcp_ack = true)

/-- The new-connection path of one loop iteration (vpnproxy.c:1155-1187):
record the parsed packet, clear the blocked flag, then look the tuple up.
The model covers the case where the tuple is not in the NAT table, so the
lookup creates the connection via `handle_new_connection` unless the arrival
is established TCP. On a failed lookup the drop counter is incremented only
when the connection was neither blocked by the gate nor established TCP. -/
def run_tun_new_conn_case (cenv : NewConnEnv) (proxy : VpnproxyData)
    (pkt : ZdtunPkt) (id : Nat) : VpnproxyData × Option ConnData :=
  let proxy := { proxy with last_pkt := some pkt, last_conn_blocked := false }
  if is_tcp_established pkt then
    -- `zdtun_lookup(tun, tuple, false)` does not create: conn == NULL,
    -- "skipping established TCP" branch
    (proxy, none)
  else
    let r := handle_new_connection cenv id proxy pkt.tuple
    match r.2.1 with
    | some d => (r.1, some d)
    | none =>
      if r.1.last_conn_blocked then
        (r.1, none)
      else
        ({ r.1 with num_dropped_connections := r.1.num_dropped_connections + 1 },
         none)

/-! ## Housekeeping (`run_tun`, vpnproxy.c:1209-1231) -/

/-- The loop-local inputs of the housekeeping chain. -/
structure HousekeepingIn where
  now_ms : Nat
  new_stats : Bool
  last_update_ms : Nat
  dump_capture_stats_now : Bool
  last_connections_dump : Nat
  java_dump_idx : Nat
  java_last_dump_ms : Nat
  next_purge_ms : Nat
  dump_vpn_stats_now : Bool
deriving DecidableEq, Repr

inductive HkTask where
  | stats
  | connDump
  | pcapFlush
  | purge
deriving DecidableEq, Repr

/-- The housekeeping branch chain of one loop iteration
(vpnproxy.c:1209-1231). The `if/else if` chain selects at most one task;
the first condition parses, under C precedence, as
`(new_stats && delta >= 300) || dump_capture_stats_now`. -/
def run_tun_housekeeping (h : HousekeepingIn) : Option HkTask :=
  if (h.new_stats = true
      ∧ CAPTURE_STATS_UPDATE_FREQUENCY_MS ≤ h.now_ms - h.last_update_ms)
     ∨ h.dump_capture_stats_now = true then
    some .stats
  else if CONNECTION_DUMP_UPDATE_FREQUENCY_MS ≤ h.now_ms - h.last_connections_dump then
    some .connDump
  else if 0 < h.java_dump_idx
      ∧ MAX_JAVA_DUMP_DELAY_MS ≤ h.now_ms - h.java_last_dump_ms then
    some .pcapFlush
  else if h.next_purge_ms ≤ h.now_ms ∨ h.dump_vpn_stats_now = true then
    some .purge
  else
    none

/-! ## The event machine

One `VpnState` holds the proxy state plus every connection record ever
created in the run (`records`, in creation order; a record's `id` is its
position). The NAT library's callbacks are modelled as events; `zdtun`
itself only routes packets to them. Records are kept after the C code frees
them so that theorems can quantify over a connection's whole lifetime; no
event of the machine reads a freed record in a way the C program could not.
-/

/-- A connection record plus the ghost count of how many times it was ever
appended to `new_conns`. -/
structure ConnRec where
  id : Nat
  tuple : Zdtun5Tuple
  data : ConnData
  new_adds : Nat
deriving DecidableEq, Repr

structure VpnState where
  proxy : VpnproxyData
  records : List ConnRec
deriving DecidableEq, Repr

/-- Events delivered to the core by the NAT library and the loop itself. -/
inductive VpnEvent where
  /-- a packet for a tuple that is not in the NAT table:
  `zdtun_lookup` runs `handle_new_connection` unless established TCP -/
  | openConn (pkt : ZdtunPkt) (cenv : NewConnEnv)
  /-- Event for `account_packet` on a live connection -/
  | acctPkt (id : Nat) (env : AccountEnv)
  /-- Event for a failed `zdtun_forward`: drop counter, then `zdtun_destroy_conn`
  (which fires `destroy_connection`) -/
  | forwardFail (id : Nat) (env : CloseEnv)
  /-- connection close callback -/
  | closeConn (id : Nat) (env : CloseEnv)
  /-- housekeeping branch b: `sendConnectionsDump`. `fail = none` models a
  run of the dump in which every JNI call succeeds; `fail = some k` models a
  JNI failure after the first `k` staged pending flags were cleared
  (`NewObjectArray` failing gives `k = 0`; `dumpConnection` failing on the
  i-th staged entry gives `k = i + 1`, its flag having been cleared just
  before the call) -/
  | connDump (fail : Option Nat)

/-- Embedding of `sendConnectionsDump` (vpnproxy.c:838-881). Nothing happens
when both batches are empty. Otherwise the staged entries are walked in
order — `new_conns` first, then `conns_updates` — and each entry's
`pending_notification` is cleared just before it is serialized. When every
JNI call succeeds (`fail = none`) all staged flags end up cleared and the
dump is delivered; when a JNI call fails (`fail = some k`: a failing
`NewObjectArray` gives `k = 0`, a failing `dumpConnection` on the i-th
staged entry gives `k = i + 1`) the code jumps to `cleanup` with only the
first `k` staged flags cleared and no dump delivered. In both cases
`cleanup` truncates both arrays via `conns_clear`. -/
def sendConnectionsDump (fail : Option Nat) (st : VpnState) : VpnState :=
  if st.proxy.new_conns = [] ∧ st.proxy.conns_updates = [] then st
  else
    let staged := st.proxy.new_conns ++ st.proxy.conns_updates
    let cleared :=
      match fail with
      | none => staged
      | some k => staged.take k
    { proxy := { st.proxy with new_conns := [], conns_updates := [] }
      records := st.records.map (fun r =>
        if r.id ∈ cleared then
          { r with data := { r.data with pending_notification := false } }
        else r) }

/-- Apply `f` to the data of the record with the given id. -/
def updateRecData (records : List ConnRec) (id : Nat) (d : ConnData) :
    List ConnRec :=
  records.map (fun r => if r.id = id then { r with data := d } else r)

def vpn_step (st : VpnState) (e : VpnEvent) : VpnState :=
  match e with
  | .openConn pkt cenv =>
    let id := st.records.length
    let r := run_tun_new_conn_case cenv st.proxy pkt id
    match r.2 with
    | none => { st with proxy := r.1 }
    | some d =>
      { proxy := r.1
        records := st.records ++
          [{ id := id, tuple := pkt.tuple, data := d
             new_adds := if shouldIgnoreConn r.1 pkt.tuple then 0 else 1 }] }
  | .acctPkt id env =>
    match st.records.find? (fun r => r.id = id) with
    | none => st
    | some r =>
      let pd := account_packet env id r.tuple st.proxy r.data
      { proxy := pd.1, records := updateRecData st.records id pd.2 }
  | .forwardFail id env =>
    match st.records.find? (fun r => r.id = id) with
    | none => st
    | some r =>
      let proxy := { st.proxy with
        num_dropped_connections := st.proxy.num_dropped_connections + 1 }
      let pd := destroy_connection env id r.tuple proxy r.data
      { proxy := pd.1, records := updateRecData st.records id pd.2 }
  | .closeConn id env =>
    match st.records.find? (fun r => r.id = id) with
    | none => st
    | some r =>
      let pd := destroy_connection env id r.tuple st.proxy r.data
      { proxy := pd.1, records := updateRecData st.records id pd.2 }
  | .connDump fail => sendConnectionsDump fail st

/-- Per-run configuration read from the host at startup. -/
structure VpnConfig where
  vpn_dns : Nat
  dns_server : Nat
  ipv6_dns_server : List Nat
  java_dump_enabled : Bool
  pcap_dump_enabled : Bool
  start_ms : Nat
deriving DecidableEq, Repr

/-- An IPv4 address as the 32-bit `s_addr` value a little-endian host reads. -/
def ipv4le (a b c d : Nat) : Nat := a + b * 256 + c * 65536 + d * 16777216

/-- The known DNS servers installed by `run_tun` (vpnproxy.c:1060-1067). -/
def known_dns_servers_init : List IpKey :=
  [ .v4 (ipv4le 8 8 8 8), .v4 (ipv4le 8 8 4 4)
  , .v4 (ipv4le 1 1 1 1), .v4 (ipv4le 1 0 0 1)
  , .v6 [0x20, 0x01, 0x48, 0x60, 0x48, 0x60, 0, 0, 0, 0, 0, 0, 0, 0, 0x88, 0x88]
  , .v6 [0x20, 0x01, 0x48, 0x60, 0x48, 0x60, 0, 0, 0, 0, 0, 0, 0, 0, 0x88, 0x44]
  , .v6 [0x26, 0x06, 0x47, 0x00, 0x47, 0x00, 0, 0, 0, 0, 0, 0, 0, 0, 0x00, 0x64]
  , .v6 [0x26, 0x06, 0x47, 0x00, 0x47, 0x00, 0, 0, 0, 0, 0, 0, 0, 0, 0x64, 0x00] ]

/-- The per-run state `run_tun` builds before the packet loop starts
(vpnproxy.c:1005-1119): zero counters, `incr_id = 0`, empty batches, global
flags reset. -/
def vpn_init (cfg : VpnConfig) : VpnState :=
  { proxy :=
      { vpn_dns := cfg.vpn_dns
        dns_server := cfg.dns_server
        ipv6_dns_server := cfg.ipv6_dns_server
        known_dns_servers := known_dns_servers_init
        ip_to_host := []
        incr_id := 0
        num_dns_requests := 0
        num_dropped_connections := 0
        last_conn_blocked := false
        last_pkt := none
        capture_stats :=
          { sent_pkts := 0, rcvd_pkts := 0, sent_bytes := 0, rcvd_bytes := 0
            new_stats := false, last_update_ms := 0 }
        new_conns := []
        conns_updates := []
        java_dump_buffer := cfg.java_dump_enabled
        java_dump_idx := 0
        java_last_dump_ms := 0
        java_flushes := []
        now_ms := cfg.start_ms
        dumper_socket := cfg.pcap_dump_enabled
        send_header := true
        collector_hdr_count := 0
        collector_writes := []
        new_dns_server := 0 }
    records := [] }

/-- Run the machine over a trace of events. -/
def vpn_run (cfg : VpnConfig) (es : List VpnEvent) : VpnState :=
  es.foldl vpn_step (vpn_init cfg)

/-! ## Machine invariants (proved below for every reachable state) -/

/-- Invariant of one connection record against the proxy state: the record
was appended to `new_conns` exactly once iff it is reportable, never
otherwise; `incr_id` was assigned iff reportable. -/
def recordInv (proxy : VpnproxyData) (r : ConnRec) : Prop :=
  r.new_adds = (if shouldIgnoreConn proxy r.tuple then 0 else 1)
  ∧ r.data.incr_id.isSome = !shouldIgnoreConn proxy r.tuple

/-- The pending/batch correspondence: each record's `pending_notification`
flag is true iff the record occurs in `new_conns`/`conns_updates` with total
multiplicity 1. This holds along any trace whose dumps all succeed, but a
failing JNI call inside `sendConnectionsDump` breaks it: the batches are
truncated while unprocessed records keep their flag set. -/
def PendingInv (st : VpnState) : Prop :=
  ∀ r ∈ st.records,
    st.proxy.new_conns.count r.id + st.proxy.conns_updates.count r.id
      = if r.data.pending_notification then 1 else 0

/-- Whether an event is a dump with a JNI failure: `dump_ok` holds for every
event except `connDump (some k)`. -/
def dump_ok : VpnEvent → Bool
  | .connDump (some _) => false
  | _ => true

/-- Global machine invariant: record ids are their creation positions, the
batches only name existing records, every record satisfies `recordInv`, and
the assigned `incr_id`s in creation order are exactly `0, ..., incr_id-1`. -/
def StateInv (st : VpnState) : Prop :=
  st.records.map (fun r => r.id) = List.range st.records.length
  ∧ (∀ k ∈ st.proxy.new_conns, k < st.records.length)
  ∧ (∀ k ∈ st.proxy.conns_updates, k < st.records.length)
  ∧ (∀ r ∈ st.records, recordInv st.proxy r)
  ∧ st.records.filterMap (fun r => r.data.incr_id)
      = List.range st.proxy.incr_id

/-! ## Concrete fixtures used by witnesses and counterexamples -/

/-- A typical configuration: tun DNS 10.215.0.1, upstream 8.8.8.8. -/
def cfg_fix : VpnConfig :=
  { vpn_dns := ipv4le 10 215 0 1
    dns_server := ipv4le 8 8 8 8
    ipv6_dns_server := List.replicate 16 0
    java_dump_enabled := true
    pcap_dump_enabled := true
    start_ms := 0 }

def proxy_fix : VpnproxyData := (vpn_init cfg_fix).proxy

/-- UDP `10.215.0.2:51000 -> 10.215.0.1:53` (ports in network byte order as
a little-endian host reads them: 51000 = 0xC738 on the wire, 53 = 0x0035). -/
def tuple_dns53 : Zdtun5Tuple :=
  { ipver := 4, ipproto := IPPROTO_UDP
    src_ip4 := ipv4le 10 215 0 2, src_ip6 := []
    dst_ip4 := ipv4le 10 215 0 1, dst_ip6 := []
    src_port := 0x38C7, dst_port := 0x3500 }

/-- A DNS response on that tuple: wire flags `0x8180`, read by the code as
the 16-bit value `0x8081`; 30 bytes of L7 payload. -/
def pkt_dns_resp : ZdtunPkt :=
  { tuple := tuple_dns53, l7_len := 30, dns_flags := 0x8081
    tcp_syn := false, tcp_ack := false }

/-- A DNS query on that tuple: wire flags `0x0100`, read as `0x0001`. -/
def pkt_dns_query : ZdtunPkt :=
  { tuple := tuple_dns53, l7_len := 30, dns_flags := 0x0001
    tcp_syn := false, tcp_ack := false }

def proxy_resp : VpnproxyData := { proxy_fix with last_pkt := some pkt_dns_resp }

def proxy_query : VpnproxyData := { proxy_fix with last_pkt := some pkt_dns_query }

/-- An ignored tuple: UDP to the tun-side DNS address on port 12345. -/
def tuple_ignored : Zdtun5Tuple :=
  { ipver := 4, ipproto := IPPROTO_UDP
    src_ip4 := ipv4le 10 215 0 2, src_ip6 := []
    dst_ip4 := ipv4le 10 215 0 1, dst_ip6 := []
    src_port := 0x38C7, dst_port := 0x3930 }

def l7_zero : L7Proto := { app_protocol := 0, master_protocol := 0 }

/-- A DPI flow that resolved the dot-less name `localhost` with an A record. -/
def flow_localhost : NdpiFlow :=
  { host_server_name := ['l', 'o', 'c', 'a', 'l', 'h', 'o', 's', 't']
    dns_rsp_type := 1
    dns_rsp_addr_ip4 := ipv4le 127 0 0 1
    dns_rsp_addr_ip6 := []
    http_url := none
    tls_client_requested_server_name := [] }

/-- A DPI flow that resolved `example.com` with an A record. -/
def flow_example : NdpiFlow :=
  { host_server_name := ['e', 'x', 'a', 'm', 'p', 'l', 'e', '.', 'c', 'o', 'm']
    dns_rsp_type := 1
    dns_rsp_addr_ip4 := ipv4le 93 184 216 34
    dns_rsp_addr_ip6 := []
    http_url := none
    tls_client_requested_server_name := [] }

/-- A connection with live DPI state that has seen 12 packets. -/
def data_twelve : ConnData :=
  { conn_data_zero with
    ndpi_flow := true, src_id := true, dst_id := true
    sent_pkts := 7, rcvd_pkts := 5 }

/-- A connection whose DPI classification already settled on DNS. -/
def data_dns : ConnData :=
  { conn_data_zero with
    ndpi_flow := true, src_id := true, dst_id := true
    l7proto := { app_protocol := NDPI_PROTOCOL_DNS
                 master_protocol := NDPI_PROTOCOL_DNS } }

/-- An environment for one accounted packet carrying no live DPI work. -/
def acct_env_fix : AccountEnv :=
  { from_tun := true, size := 100, now := 1000, status := 2
    dpi := { l7 := l7_zero, extra_dissection_possible := true
             guess := l7_zero, flow := flow_localhost } }

/-- A DoT attempt: TCP SYN to the known DNS server 1.1.1.1 port 853
(network byte order 0x0355, read as 0x5503 on a little-endian host). -/
def pkt_dot : ZdtunPkt :=
  { tuple :=
      { ipver := 4, ipproto := IPPROTO_TCP
        src_ip4 := ipv4le 10 215 0 2, src_ip6 := []
        dst_ip4 := ipv4le 1 1 1 1, dst_ip6 := []
        src_port := 0x38C7, dst_port := 0x5503 }
    l7_len := 0, dns_flags := 0, tcp_syn := true, tcp_ack := false }

/-- A new-connection environment where every allocation succeeds. -/
def cenv_fix : NewConnEnv :=
  { calloc_data_ok := true, calloc_flow_ok := true, calloc_src_ok := true
    calloc_dst_ok := true, uid := 1000, now := 1000 }

/-- A housekeeping snapshot with a forced capture-stats dump pending. -/
def hk_fix : HousekeepingIn :=
  { now_ms := 1000, new_stats := false, last_update_ms := 900
    dump_capture_stats_now := true, last_connections_dump := 0
    java_dump_idx := 0, java_last_dump_ms := 0, next_purge_ms := 6000
    dump_vpn_stats_now := false }

/-! # Helper lemmas -/

theorem reload_dns_server_is_dns_server_dest (proxy : VpnproxyData)
    (tuple : Zdtun5Tuple) :
    is_dns_server_dest (reload_dns_server proxy) tuple
      = is_dns_server_dest proxy tuple := by
  unfold reload_dns_server
  split <;> rfl

theorem reload_dns_server_last_pkt (proxy : VpnproxyData) :
    (reload_dns_server proxy).last_pkt = proxy.last_pkt := by
  unfold reload_dns_server
  split <;> rfl

theorem reload_dns_server_is_internal (proxy : VpnproxyData)
    (tuple : Zdtun5Tuple) :
    is_internal_dns_dest (reload_dns_server proxy) tuple
      = is_internal_dns_dest proxy tuple := by
  unfold reload_dns_server
  split <;> rfl

theorem reload_dns_server_shape (proxy : VpnproxyData) :
    ∃ ds nds, reload_dns_server proxy
      = { proxy with dns_server := ds, new_dns_server := nds } := by
  unfold reload_dns_server
  split
  · exact ⟨_, _, rfl⟩
  · exact ⟨_, _, rfl⟩

theorem check_dns_req_allowed_core_proxy_shape (proxy : VpnproxyData)
    (tuple : Zdtun5Tuple) :
    ∃ ndr, (check_dns_req_allowed_core proxy tuple).proxy
      = { proxy with num_dns_requests := ndr } := by
  unfold check_dns_req_allowed_core
  repeat' split
  all_goals exact ⟨_, rfl⟩

/-- The gate only ever touches `dns_server`, `new_dns_server` and
`num_dns_requests` of the proxy state. -/
theorem check_dns_req_allowed_proxy_shape (proxy : VpnproxyData)
    (tuple : Zdtun5Tuple) :
    ∃ ds nds ndr,
      (check_dns_req_allowed proxy tuple).proxy =
        { proxy with dns_server := ds, new_dns_server := nds
                     num_dns_requests := ndr } := by
  obtain ⟨ds, nds, h1⟩ := reload_dns_server_shape proxy
  obtain ⟨ndr, h2⟩ := check_dns_req_allowed_core_proxy_shape
    (reload_dns_server proxy) tuple
  refine ⟨ds, nds, ndr, ?_⟩
  rw [check_dns_req_allowed, h2, h1]

/-- The gate increments `num_dns_requests` only on the allowed-query path. -/
theorem check_dns_req_allowed_num_dns_requests (proxy : VpnproxyData)
    (tuple : Zdtun5Tuple) :
    (check_dns_req_allowed proxy tuple).allowed = false →
      (check_dns_req_allowed proxy tuple).proxy.num_dns_requests
        = proxy.num_dns_requests := by
  have hr : (reload_dns_server proxy).num_dns_requests = proxy.num_dns_requests := by
    obtain ⟨ds, nds, h⟩ := reload_dns_server_shape proxy
    rw [h]
  rw [check_dns_req_allowed]
  unfold check_dns_req_allowed_core
  repeat' split
  all_goals simp [hr]

/-- Full behaviour of the gate body: when it allows, when it DNATs, when it
counts a DNS request. -/
theorem check_dns_req_allowed_core_spec (proxy : VpnproxyData)
    (tuple : Zdtun5Tuple) :
    ((check_dns_req_allowed_core proxy tuple).allowed = true ↔
      (is_dns_server_dest proxy tuple = false
        ∨ (tuple.ipproto = IPPROTO_UDP ∧ ntohs tuple.dst_port = 53
            ∧ ∃ pkt, proxy.last_pkt = some pkt ∧ dns_packet_sizeof ≤ pkt.l7_len)))
    ∧ ((check_dns_req_allowed_core proxy tuple).dnat_called = true ↔
      (is_dns_server_dest proxy tuple = true
        ∧ is_internal_dns_dest proxy tuple = true
        ∧ tuple.ipproto = IPPROTO_UDP ∧ ntohs tuple.dst_port = 53
        ∧ ∃ pkt, proxy.last_pkt = some pkt ∧ dns_packet_sizeof ≤ pkt.l7_len
            ∧ pkt.dns_flags &&& DNS_FLAGS_MASK = DNS_TYPE_REQUEST))
    ∧ ((check_dns_req_allowed_core proxy tuple).proxy.num_dns_requests
          = proxy.num_dns_requests + 1 ↔
      (is_dns_server_dest proxy tuple = true
        ∧ tuple.ipproto = IPPROTO_UDP ∧ ntohs tuple.dst_port = 53
        ∧ ∃ pkt, proxy.last_pkt = some pkt ∧ dns_packet_sizeof ≤ pkt.l7_len
            ∧ pkt.dns_flags &&& DNS_FLAGS_MASK = DNS_TYPE_REQUEST)) := by
  by_cases hd : is_dns_server_dest proxy tuple = false
  · simp [check_dns_req_allowed_core, hd]
  · rw [Bool.not_eq_false] at hd
    rcases hp : proxy.last_pkt with _ | pkt
    · simp [check_dns_req_allowed_core, hd, hp]
    · by_cases hu : tuple.ipproto = IPPROTO_UDP ∧ ntohs tuple.dst_port = 53
      · by_cases hl : dns_packet_sizeof ≤ pkt.l7_len
        · by_cases hf : pkt.dns_flags &&& DNS_FLAGS_MASK = DNS_TYPE_REQUEST
          · simp [check_dns_req_allowed_core, hd, hp, hu, hl, hf]
          · simp [check_dns_req_allowed_core, hd, hp, hu, hl, hf]
        · simp [check_dns_req_allowed_core, hd, hp, hu, hl]
      · rcases not_and_or.mp hu with h | h <;>
          simp [check_dns_req_allowed_core, hd, hp, hu, h]

theorem reload_dns_server_num_dns_requests (proxy : VpnproxyData) :
    (reload_dns_server proxy).num_dns_requests = proxy.num_dns_requests := by
  obtain ⟨ds, nds, h⟩ := reload_dns_server_shape proxy
  rw [h]

/-! # C1: the DNS policy gate -/

/-- C1 (counterexample to the claim as stated): the claim requires
`flags & 0x8000 == 0` for the gate to allow a packet to a DNS-server
destination and says DNS responses are blocked; but on a concrete UDP/53
DNS *response* to the tun-side DNS server (wire flags 0x8180, payload 30 B)
`check_dns_req_allowed` returns allow. -/
theorem C1_counterexample :
    (check_dns_req_allowed proxy_resp tuple_dns53).allowed = true
    ∧ is_dns_server_dest proxy_resp tuple_dns53 = true
    ∧ tuple_dns53.ipproto = IPPROTO_UDP
    ∧ pkt_dns_resp.dns_flags &&& DNS_FLAGS_MASK ≠ DNS_TYPE_REQUEST
    ∧ proxy_resp.last_pkt = some pkt_dns_resp := by decide

/-- C1 (amended): for a new connection the gate allows iff the destination
is not classified as a DNS server, or the packet is UDP with destination
port 53 and an L7 payload of at least the DNS header size — the flags test
does not gate the allow decision. The `flags & 0x8000 == 0` (query) test
only decides whether the DNS-request counter is incremented and whether the
connection is marked for DNAT (DNAT additionally requires the internal
DNS destination); everything else to a DNS-server destination — DoT
(TCP/853), DoH, short payloads — is blocked by returning non-zero. -/
theorem C1_dns_gate_spec (proxy : VpnproxyData) (tuple : Zdtun5Tuple) :
    ((check_dns_req_allowed proxy tuple).allowed = true ↔
      (is_dns_server_dest proxy tuple = false
        ∨ (tuple.ipproto = IPPROTO_UDP ∧ ntohs tuple.dst_port = 53
            ∧ ∃ pkt, proxy.last_pkt = some pkt ∧ dns_packet_sizeof ≤ pkt.l7_len)))
    ∧ ((check_dns_req_allowed proxy tuple).dnat_called = true ↔
      (is_dns_server_dest proxy tuple = true
        ∧ is_internal_dns_dest proxy tuple = true
        ∧ tuple.ipproto = IPPROTO_UDP ∧ ntohs tuple.dst_port = 53
        ∧ ∃ pkt, proxy.last_pkt = some pkt ∧ dns_packet_sizeof ≤ pkt.l7_len
            ∧ pkt.dns_flags &&& DNS_FLAGS_MASK = DNS_TYPE_REQUEST))
    ∧ ((check_dns_req_allowed proxy tuple).proxy.num_dns_requests
          = proxy.num_dns_requests + 1 ↔
      (is_dns_server_dest proxy tuple = true
        ∧ tuple.ipproto = IPPROTO_UDP ∧ ntohs tuple.dst_port = 53
        ∧ ∃ pkt, proxy.last_pkt = some pkt ∧ dns_packet_sizeof ≤ pkt.l7_len
            ∧ pkt.dns_flags &&& DNS_FLAGS_MASK = DNS_TYPE_REQUEST)) := by
  have h := check_dns_req_allowed_core_spec (reload_dns_server proxy) tuple
  rw [reload_dns_server_is_dns_server_dest, reload_dns_server_is_internal,
      reload_dns_server_last_pkt, reload_dns_server_num_dns_requests] at h
  rw [check_dns_req_allowed]
  exact h

/-! # C3: the pcap host buffer -/

/-- C3 (counterexample to the claim as stated): appending a 100-byte payload
to the empty host buffer advances the write index by 116 = 16 + 100 — the
libpcap per-record header is 16 bytes, not the claimed 14. -/
theorem C3_counterexample :
    (account_pcap_buffer proxy_fix 100).java_flushes = proxy_fix.java_flushes
    ∧ (account_pcap_buffer proxy_fix 100).java_dump_idx
        ≠ proxy_fix.java_dump_idx + (14 + 100)
    ∧ (account_pcap_buffer proxy_fix 100).java_dump_idx
        = proxy_fix.java_dump_idx + (16 + 100) := by decide

/-- C3 (amended): the pcap host buffer write index never exceeds the
512 KiB capacity; an appended record advances the index by exactly
`16 + payload_size` (the libpcap per-record header is 16 bytes); and when
the record would not fit, the buffer is flushed before appending (the
record is then appended from index 0, unless it cannot fit even an empty
buffer, in which case the code logs an error and skips it). -/
theorem C3_pcap_buffer_spec (proxy : VpnproxyData) (size : Nat) :
    (account_pcap_buffer proxy size).java_dump_idx ≤ JAVA_PCAP_BUFFER_SIZE
    ∧ (size + pcaprec_hdr_sizeof < JAVA_PCAP_BUFFER_SIZE - proxy.java_dump_idx →
        (account_pcap_buffer proxy size).java_dump_idx
            = proxy.java_dump_idx + (pcaprec_hdr_sizeof + size)
          ∧ (account_pcap_buffer proxy size).java_flushes = proxy.java_flushes)
    ∧ (JAVA_PCAP_BUFFER_SIZE - proxy.java_dump_idx ≤ size + pcaprec_hdr_sizeof →
        (account_pcap_buffer proxy size).java_flushes
            = proxy.java_flushes ++ [proxy.java_dump_idx]
          ∧ (size + pcaprec_hdr_sizeof < JAVA_PCAP_BUFFER_SIZE →
              (account_pcap_buffer proxy size).java_dump_idx
                = pcaprec_hdr_sizeof + size)) := by
  by_cases h1 : JAVA_PCAP_BUFFER_SIZE - proxy.java_dump_idx ≤ size + pcaprec_hdr_sizeof
  · by_cases h2 : JAVA_PCAP_BUFFER_SIZE ≤ size + pcaprec_hdr_sizeof
    · have hidx : (account_pcap_buffer proxy size).java_dump_idx = 0 := by
        simp [account_pcap_buffer, javaPcapDump, dump_pcap_rec_len, h1, h2]
      have hfl : (account_pcap_buffer proxy size).java_flushes
          = proxy.java_flushes ++ [proxy.java_dump_idx] := by
        simp [account_pcap_buffer, javaPcapDump, dump_pcap_rec_len, h1, h2]
      exact ⟨by rw [hidx]; omega, fun hc => absurd hc (by omega),
        fun _ => ⟨hfl, fun hc => absurd hc (by omega)⟩⟩
    · have hidx : (account_pcap_buffer proxy size).java_dump_idx
          = pcaprec_hdr_sizeof + size := by
        simp [account_pcap_buffer, javaPcapDump, dump_pcap_rec_len, h1, h2]
      have hfl : (account_pcap_buffer proxy size).java_flushes
          = proxy.java_flushes ++ [proxy.java_dump_idx] := by
        simp [account_pcap_buffer, javaPcapDump, dump_pcap_rec_len, h1, h2]
      exact ⟨by rw [hidx]; omega, fun hc => absurd hc (by omega),
        fun _ => ⟨hfl, fun _ => hidx⟩⟩
  · have hidx : (account_pcap_buffer proxy size).java_dump_idx
        = proxy.java_dump_idx + (pcaprec_hdr_sizeof + size) := by
      simp [account_pcap_buffer, javaPcapDump, dump_pcap_rec_len, h1]
    have hfl : (account_pcap_buffer proxy size).java_flushes
        = proxy.java_flushes := by
      simp [account_pcap_buffer, javaPcapDump, dump_pcap_rec_len, h1]
    exact ⟨by rw [hidx]; omega, fun _ => ⟨hidx, hfl⟩,
      fun hc => absurd hc h1⟩

/-- C3 witness: the amended theorem applied at an empty buffer and a
100-byte payload. -/
theorem C3_pcap_buffer_spec_witness :
    (account_pcap_buffer proxy_fix 100).java_dump_idx
      = proxy_fix.java_dump_idx + (pcaprec_hdr_sizeof + 100) :=
  ((C3_pcap_buffer_spec proxy_fix 100).2.1 (by decide)).1

/-! # C4: tun write errors -/

/-- C4 (counterexample to the claim as stated): a partial tun write
(50 of 100 bytes) does not terminate the run — `running` stays `true`;
only the per-packet error `-1` is returned to the NAT library. -/
theorem C4_counterexample :
    (net2tun true 100 50 0).running = true
    ∧ (net2tun true 100 50 0).rv = -1
    ∧ (0 : Int) ≤ 50 ∧ (50 : Int) ≠ (100 : Int) := by decide

/-- C4 (amended): a tun write failing with EIO — or any errno other than
ENOBUFS — stops the packet loop; ENOBUFS is logged and only the write error
is returned, so the NAT library abandons that connection while the loop
keeps running; a *partial* write is logged at FATAL level and returns `-1`
to the NAT library, but does not stop the packet loop. -/
theorem C4_net2tun_spec (running : Bool) (pkt_size : Nat) (rv : Int) (e : Nat) :
    (running = true → rv < 0 → e = EIO →
      (net2tun running pkt_size rv e).running = false)
    ∧ (running = true → rv < 0 → e ≠ ENOBUFS →
      (net2tun running pkt_size rv e).running = false)
    ∧ (running = true → rv < 0 → e = ENOBUFS →
      (net2tun running pkt_size rv e).running = true
      ∧ (net2tun running pkt_size rv e).rv = rv)
    ∧ (running = true → 0 ≤ rv → rv ≠ (pkt_size : Int) →
      (net2tun running pkt_size rv e).running = true
      ∧ (net2tun running pkt_size rv e).rv = -1) := by
  refine ⟨?_, ?_, ?_, ?_⟩
  · intro hr hv he
    subst he
    simp [net2tun, hr, hv, ENOBUFS, EIO]
  · intro hr hv he
    simp only [ENOBUFS] at he
    by_cases h5 : e = EIO <;> simp [net2tun, hr, hv, he, h5, EIO, ENOBUFS]
  · intro hr hv he
    subst he
    simp [net2tun, hr, hv, ENOBUFS]
  · intro hr hv hne
    rw [net2tun]
    simp [hr, not_lt.mpr hv, hne]

/-- C4 witness: the amended theorem applied at concrete writes. -/
theorem C4_net2tun_spec_witness :
    (net2tun true 100 (-1) EIO).running = false
    ∧ (net2tun true 100 (-1) ENOBUFS).running = true
    ∧ (net2tun true 100 50 0).rv = -1 :=
  ⟨(C4_net2tun_spec true 100 (-1) EIO).1 rfl (by decide) rfl,
   ((C4_net2tun_spec true 100 (-1) ENOBUFS).2.2.1 rfl (by decide) rfl).1,
   ((C4_net2tun_spec true 100 50 0).2.2.2 rfl (by decide) (by decide)).2⟩

/-! # DPI shape lemmas -/

/-- The function `end_ndpi_detection` touches only `ip_to_host` of the proxy state. -/
theorem end_ndpi_detection_proxy_shape (flow : NdpiFlow) (guess : L7Proto)
    (proxy : VpnproxyData) (data : ConnData) :
    ∃ lru, (end_ndpi_detection flow guess proxy data).1
      = { proxy with ip_to_host := lru } := by
  unfold end_ndpi_detection
  dsimp only
  repeat' split
  all_goals exact ⟨_, rfl⟩

/-- The function `end_ndpi_detection` touches only `l7proto`, `info`, `url` and the DPI
allocation flags of the connection data. -/
theorem end_ndpi_detection_data_shape (flow : NdpiFlow) (guess : L7Proto)
    (proxy : VpnproxyData) (data : ConnData) :
    (end_ndpi_detection flow guess proxy data).2 = data
    ∨ ∃ i u f1 f2 f3,
        (end_ndpi_detection flow guess proxy data).2
          = { data with l7proto := resolved_l7 guess data, info := i, url := u
                        ndpi_flow := f1, src_id := f2, dst_id := f3 } := by
  unfold end_ndpi_detection free_ndpi
  dsimp only
  repeat' split
  · exact Or.inl rfl
  all_goals exact Or.inr ⟨_, _, _, _, _, rfl⟩

/-- When the DPI handle is live, `end_ndpi_detection` frees it and installs
the resolved classification. -/
theorem end_ndpi_detection_l7_flags (flow : NdpiFlow) (guess : L7Proto)
    (proxy : VpnproxyData) (data : ConnData) (h : data.ndpi_flow = true) :
    (end_ndpi_detection flow guess proxy data).2.ndpi_flow = false
    ∧ (end_ndpi_detection flow guess proxy data).2.src_id = false
    ∧ (end_ndpi_detection flow guess proxy data).2.dst_id = false
    ∧ (end_ndpi_detection flow guess proxy data).2.l7proto
        = resolved_l7 guess data := by
  unfold end_ndpi_detection free_ndpi
  rw [h]
  dsimp only
  repeat' split
  all_goals simp_all

/-- The function `process_ndpi_packet` touches only `ip_to_host` of the proxy state. -/
theorem process_ndpi_packet_proxy_shape (env : DpiPacketEnv)
    (proxy : VpnproxyData) (data : ConnData) :
    ∃ lru, (process_ndpi_packet env proxy data).1
      = { proxy with ip_to_host := lru } := by
  unfold process_ndpi_packet
  dsimp only
  split
  · exact end_ndpi_detection_proxy_shape env.flow env.guess proxy _
  · exact ⟨proxy.ip_to_host, rfl⟩

/-- The function `process_ndpi_packet` touches only `l7proto`, `info`, `url` and the DPI
allocation flags of the connection data. -/
theorem process_ndpi_packet_data_shape (env : DpiPacketEnv)
    (proxy : VpnproxyData) (data : ConnData) :
    ∃ l7 i u f1 f2 f3,
      (process_ndpi_packet env proxy data).2
        = { data with l7proto := l7, info := i, url := u
                      ndpi_flow := f1, src_id := f2, dst_id := f3 } := by
  unfold process_ndpi_packet
  dsimp only
  split
  · rcases end_ndpi_detection_data_shape env.flow env.guess proxy
      { data with l7proto := env.l7 } with h | ⟨i, u, f1, f2, f3, h⟩
    · exact ⟨env.l7, data.info, data.url, data.ndpi_flow, data.src_id,
        data.dst_id, by rw [h]⟩
    · exact ⟨_, i, u, f1, f2, f3, by rw [h]⟩
  · exact ⟨env.l7, data.info, data.url, data.ndpi_flow, data.src_id,
      data.dst_id, rfl⟩

/-! # C5: DNS metadata extraction -/

/-- C5 (counterexample to the claim as stated): for a DNS connection whose
extracted name `localhost` contains no `.`, `end_ndpi_detection` still
stores it as the connection's `info` — the `.` test only guards the Host
LRU insertion (which correctly does not happen here). -/
theorem C5_counterexample :
    ((end_ndpi_detection flow_localhost l7_zero proxy_fix data_dns).2.info
        = some ['l', 'o', 'c', 'a', 'l', 'h', 'o', 's', 't'])
    ∧ contains_dot ['l', 'o', 'c', 'a', 'l', 'h', 'o', 's', 't'] = false
    ∧ (end_ndpi_detection flow_localhost l7_zero proxy_fix data_dns).1.ip_to_host
        = proxy_fix.ip_to_host := by decide

/-- C5 (amended): when DPI concludes for a DNS connection,
`host_server_name` is stored as the connection's `info` whenever it is
non-empty — with or without a `.` — and the `(rsp_ip → host name)` pair is
inserted into the Host LRU iff the name is non-empty, contains a `.`, and
the response is type A with a non-zero address or type AAAA with a
global-unicast address (`addr[0] & 0xE0 == 0x20`). -/
theorem C5_dns_metadata_spec (flow : NdpiFlow) (guess : L7Proto)
    (proxy : VpnproxyData) (data : ConnData)
    (h : data.ndpi_flow = true)
    (hm : (resolved_l7 guess data).master_protocol = NDPI_PROTOCOL_DNS) :
    ((end_ndpi_detection flow guess proxy data).2.info
        = if flow.host_server_name ≠ [] then
            some (strndup256 flow.host_server_name)
          else data.info)
    ∧ ((end_ndpi_detection flow guess proxy data).1.ip_to_host
        = if flow.host_server_name ≠ []
             ∧ contains_dot (strndup256 flow.host_server_name) = true then
            (if flow.dns_rsp_type = 0x1 ∧ flow.dns_rsp_addr_ip4 ≠ 0 then
              ip_lru_add proxy.ip_to_host (.v4 flow.dns_rsp_addr_ip4)
                (strndup256 flow.host_server_name)
            else if flow.dns_rsp_type = 0x1c
                ∧ byte0 flow.dns_rsp_addr_ip6 &&& 0xE0 = 0x20 then
              ip_lru_add proxy.ip_to_host (.v6 flow.dns_rsp_addr_ip6)
                (strndup256 flow.host_server_name)
            else proxy.ip_to_host)
          else proxy.ip_to_host) := by
  by_cases hn : flow.host_server_name = []
  · simp [end_ndpi_detection, h, hm, hn, free_ndpi]
  · by_cases hdot : contains_dot (strndup256 flow.host_server_name) = true
    · by_cases hA : flow.dns_rsp_type = 0x1 ∧ flow.dns_rsp_addr_ip4 ≠ 0
      · simp [end_ndpi_detection, h, hm, hn, hdot, hA, free_ndpi]
      · by_cases h6 : flow.dns_rsp_type = 0x1c
            ∧ byte0 flow.dns_rsp_addr_ip6 &&& 0xE0 = 0x20
        · simp [end_ndpi_detection, h, hm, hn, hdot, hA, h6, free_ndpi]
        · simp [end_ndpi_detection, h, hm, hn, hdot, hA, h6, free_ndpi]
    · simp [end_ndpi_detection, h, hm, hn, hdot, free_ndpi]

/-- C5 witness: the amended theorem applied to a resolved `example.com`
A record. -/
theorem C5_dns_metadata_spec_witness :
    ((end_ndpi_detection flow_example l7_zero proxy_fix data_dns).2.info
        = if flow_example.host_server_name ≠ [] then
            some (strndup256 flow_example.host_server_name)
          else data_dns.info)
    ∧ ((end_ndpi_detection flow_example l7_zero proxy_fix data_dns).1.ip_to_host
        = if flow_example.host_server_name ≠ []
             ∧ contains_dot (strndup256 flow_example.host_server_name) = true then
            (if flow_example.dns_rsp_type = 0x1 ∧ flow_example.dns_rsp_addr_ip4 ≠ 0 then
              ip_lru_add proxy_fix.ip_to_host (.v4 flow_example.dns_rsp_addr_ip4)
                (strndup256 flow_example.host_server_name)
            else if flow_example.dns_rsp_type = 0x1c
                ∧ byte0 flow_example.dns_rsp_addr_ip6 &&& 0xE0 = 0x20 then
              ip_lru_add proxy_fix.ip_to_host (.v6 flow_example.dns_rsp_addr_ip6)
                (strndup256 flow_example.host_server_name)
            else proxy_fix.ip_to_host)
          else proxy_fix.ip_to_host) :=
  C5_dns_metadata_spec flow_example l7_zero proxy_fix data_dns (by decide) (by decide)

/-! # C6: DPI termination -/

/-- C6 (confirmed): for a connection with a live DPI handle, detection
terminates exactly when the cumulative packet count has reached
`MAX_DPI_PACKETS` (12) or the library reported a known app protocol with no
further dissection possible; on termination the classification is resolved
(guess when still unknown, then `master := app` if `master` is unknown) and
all DPI allocations are freed. -/
theorem C6_dpi_termination_spec (env : DpiPacketEnv) (proxy : VpnproxyData)
    (data : ConnData) (h : data.ndpi_flow = true) :
    ((process_ndpi_packet env proxy data).2.ndpi_flow = false ↔
      (MAX_DPI_PACKETS ≤ data.sent_pkts + data.rcvd_pkts
        ∨ (env.l7.app_protocol ≠ NDPI_PROTOCOL_UNKNOWN
            ∧ env.extra_dissection_possible = false)))
    ∧ ((process_ndpi_packet env proxy data).2.ndpi_flow = false →
        (process_ndpi_packet env proxy data).2.l7proto
            = resolved_l7 env.guess { data with l7proto := env.l7 }
        ∧ (process_ndpi_packet env proxy data).2.src_id = false
        ∧ (process_ndpi_packet env proxy data).2.dst_id = false) := by
  by_cases hc : MAX_DPI_PACKETS ≤ data.sent_pkts + data.rcvd_pkts
      ∨ (env.l7.app_protocol ≠ NDPI_PROTOCOL_UNKNOWN
          ∧ env.extra_dissection_possible = false)
  · have hfl := end_ndpi_detection_l7_flags env.flow env.guess proxy
      { data with l7proto := env.l7 } (by simpa using h)
    have he : process_ndpi_packet env proxy data
        = end_ndpi_detection env.flow env.guess proxy
            { data with l7proto := env.l7 } := by
      unfold process_ndpi_packet
      rw [if_pos hc]
    rw [he]
    exact ⟨by simp [hfl.1, hc], fun _ => ⟨hfl.2.2.2, hfl.2.1, hfl.2.2.1⟩⟩
  · have he : process_ndpi_packet env proxy data
        = (proxy, { data with l7proto := env.l7 }) := by
      unfold process_ndpi_packet
      rw [if_neg hc]
    rw [he]
    simp [h, hc]

/-- C6 witness: the theorem applied to a connection at its 12th packet. -/
theorem C6_dpi_termination_spec_witness :
    (process_ndpi_packet acct_env_fix.dpi proxy_fix data_twelve).2.ndpi_flow
      = false :=
  (C6_dpi_termination_spec acct_env_fix.dpi proxy_fix data_twelve rfl).1.mpr
    (Or.inl (by decide))

/-! # C9: housekeeping scheduling -/

/-- C9 (confirmed): each loop iteration performs at most one housekeeping
task (the selector returns at most one task, and any two selected tasks are
equal), and the aggregate-stats task is selected exactly when the capture
stats are dirty and at least 300 ms have elapsed since the last stats emit,
or a forced dump was requested; when selected, no other housekeeping branch
runs in that iteration. -/
theorem C9_housekeeping_spec (h : HousekeepingIn) :
    (run_tun_housekeeping h = some HkTask.stats ↔
      ((h.new_stats = true
          ∧ CAPTURE_STATS_UPDATE_FREQUENCY_MS ≤ h.now_ms - h.last_update_ms)
        ∨ h.dump_capture_stats_now = true))
    ∧ (run_tun_housekeeping h = some HkTask.stats →
        (run_tun_housekeeping h ≠ some HkTask.connDump
          ∧ run_tun_housekeeping h ≠ some HkTask.pcapFlush
          ∧ run_tun_housekeeping h ≠ some HkTask.purge))
    ∧ (∀ t t', run_tun_housekeeping h = some t →
        run_tun_housekeeping h = some t' → t = t') := by
  refine ⟨?_, ?_, ?_⟩
  · by_cases hc : (h.new_stats = true
        ∧ CAPTURE_STATS_UPDATE_FREQUENCY_MS ≤ h.now_ms - h.last_update_ms)
        ∨ h.dump_capture_stats_now = true
    · simp [run_tun_housekeeping, hc]
    · unfold run_tun_housekeeping
      rw [if_neg hc]
      repeat' split
      all_goals simp [hc]
  · intro hs
    rw [hs]
    refine ⟨by simp, by simp, by simp⟩
  · intro t t' h1 h2
    exact Option.some.inj (h1.symm.trans h2)

/-! # C10: ignored connections -/

theorem shouldIgnoreConn_vpn_dns_eq (p q : VpnproxyData) (t : Zdtun5Tuple)
    (h : p.vpn_dns = q.vpn_dns) :
    shouldIgnoreConn p t = shouldIgnoreConn q t := by
  unfold shouldIgnoreConn
  rw [h]

/-- The DPI step touches only `ip_to_host` of the proxy state. -/
theorem account_dpi_proxy_shape (env : AccountEnv) (proxy : VpnproxyData)
    (data : ConnData) :
    ∃ lru, (account_dpi env proxy data).1 = { proxy with ip_to_host := lru } := by
  unfold account_dpi
  split
  · exact process_ndpi_packet_proxy_shape env.dpi proxy data
  · exact ⟨proxy.ip_to_host, rfl⟩

/-- The DPI step touches only `l7proto`, `info`, `url` and the DPI
allocation flags of the connection data. -/
theorem account_dpi_data_shape (env : AccountEnv) (proxy : VpnproxyData)
    (data : ConnData) :
    ∃ l7 i u f1 f2 f3,
      (account_dpi env proxy data).2
        = { data with l7proto := l7, info := i, url := u
                      ndpi_flow := f1, src_id := f2, dst_id := f3 } := by
  unfold account_dpi
  split
  · exact process_ndpi_packet_data_shape env.dpi proxy data
  · exact ⟨data.l7proto, data.info, data.url, data.ndpi_flow, data.src_id,
      data.dst_id, rfl⟩

/-- C10 (confirmed): a packet accounted to an ignored connection (IPv4
destination equal to the tun-side DNS address on a port other than 53)
still updates the per-connection counters, `last_seen`, `status` and the
DPI state — `account_packet` reduces to exactly the counters + DPI phase —
but contributes nothing to the aggregate capture statistics, writes to
neither pcap sink, and adds no batch entry. -/
theorem C10_ignored_conn_frame (env : AccountEnv) (id : Nat)
    (tuple : Zdtun5Tuple) (proxy : VpnproxyData) (data : ConnData)
    (hig : shouldIgnoreConn proxy tuple = true) :
    account_packet env id tuple proxy data
      = account_dpi env proxy (account_conn_counters env data)
    ∧ (account_packet env id tuple proxy data).1.capture_stats
        = proxy.capture_stats
    ∧ (account_packet env id tuple proxy data).1.new_conns = proxy.new_conns
    ∧ (account_packet env id tuple proxy data).1.conns_updates
        = proxy.conns_updates
    ∧ (account_packet env id tuple proxy data).1.java_dump_idx
        = proxy.java_dump_idx
    ∧ (account_packet env id tuple proxy data).1.java_flushes
        = proxy.java_flushes
    ∧ (account_packet env id tuple proxy data).1.send_header
        = proxy.send_header
    ∧ (account_packet env id tuple proxy data).1.collector_hdr_count
        = proxy.collector_hdr_count
    ∧ (account_packet env id tuple proxy data).1.collector_writes
        = proxy.collector_writes
    ∧ (account_packet env id tuple proxy data).2.pending_notification
        = data.pending_notification
    ∧ (account_packet env id tuple proxy data).2.sent_pkts
        = data.sent_pkts + (if env.from_tun then 1 else 0)
    ∧ (account_packet env id tuple proxy data).2.rcvd_pkts
        = data.rcvd_pkts + (if env.from_tun then 0 else 1)
    ∧ (account_packet env id tuple proxy data).2.sent_bytes
        = data.sent_bytes + (if env.from_tun then env.size else 0)
    ∧ (account_packet env id tuple proxy data).2.rcvd_bytes
        = data.rcvd_bytes + (if env.from_tun then 0 else env.size)
    ∧ (account_packet env id tuple proxy data).2.last_seen = env.now
    ∧ (account_packet env id tuple proxy data).2.status = env.status := by
  obtain ⟨lru, hsh⟩ :=
    account_dpi_proxy_shape env proxy (account_conn_counters env data)
  have hcond : shouldIgnoreConn
      (account_dpi env proxy (account_conn_counters env data)).1 tuple = true := by
    rw [shouldIgnoreConn_vpn_dns_eq _ proxy _ (by rw [hsh])]
    exact hig
  have heq : account_packet env id tuple proxy data
      = account_dpi env proxy (account_conn_counters env data) := by
    unfold account_packet
    dsimp only
    rw [hcond]
    simp
  obtain ⟨l7, i, u, f1, f2, f3, hd⟩ :=
    account_dpi_data_shape env proxy (account_conn_counters env data)
  refine ⟨heq, ?_, ?_, ?_, ?_, ?_, ?_, ?_, ?_, ?_, ?_, ?_, ?_, ?_, ?_, ?_⟩ <;>
    rw [heq] <;>
    first
      | rw [hsh]
      | (rw [hd]; rcases hft : env.from_tun <;>
          simp [account_conn_counters, hft])

/-! # Machine helper lemmas -/

theorem map_preserve_id (l : List ConnRec) (g : ConnRec → ConnRec)
    (h : ∀ r ∈ l, (g r).id = r.id) :
    (l.map g).map (fun r => r.id) = l.map (fun r => r.id) := by
  rw [List.map_map]
  exact List.map_congr_left h

theorem map_preserve_incr (l : List ConnRec) (g : ConnRec → ConnRec)
    (h : ∀ r ∈ l, (g r).data.incr_id = r.data.incr_id) :
    (l.map g).filterMap (fun r => r.data.incr_id)
      = l.filterMap (fun r => r.data.incr_id) := by
  rw [List.filterMap_map]
  exact List.filterMap_congr h

theorem id_lt_of_mem (l : List ConnRec)
    (hmap : l.map (fun r => r.id) = List.range l.length)
    (r : ConnRec) (hr : r ∈ l) : r.id < l.length := by
  have hm : r.id ∈ l.map (fun r => r.id) := List.mem_map_of_mem _ hr
  rw [hmap] at hm
  exact List.mem_range.mp hm

theorem rec_unique (l : List ConnRec)
    (hmap : l.map (fun r => r.id) = List.range l.length)
    (r s : ConnRec) (hr : r ∈ l) (hs : s ∈ l) (hid : r.id = s.id) : r = s := by
  have hnd : (l.map (fun r => r.id)).Nodup := by
    rw [hmap]; exact List.nodup_range _
  exact List.inj_on_of_nodup_map hnd hr hs hid

/-- The function `account_sinks` touches only the pcap sink fields. -/
theorem account_sinks_shape (env : AccountEnv) (proxy : VpnproxyData) :
    ∃ a b c d e f, account_sinks env proxy
      = { proxy with java_dump_idx := a, java_last_dump_ms := b
                     java_flushes := c, send_header := d
                     collector_hdr_count := e, collector_writes := f } := by
  unfold account_sinks account_pcap_buffer javaPcapDump account_collector
  dsimp only
  repeat' split
  all_goals exact ⟨_, _, _, _, _, _, rfl⟩

theorem account_sinks_frame (env : AccountEnv) (proxy : VpnproxyData) :
    (account_sinks env proxy).vpn_dns = proxy.vpn_dns
    ∧ (account_sinks env proxy).new_conns = proxy.new_conns
    ∧ (account_sinks env proxy).conns_updates = proxy.conns_updates
    ∧ (account_sinks env proxy).incr_id = proxy.incr_id := by
  obtain ⟨a, b, c, d, e, f, h⟩ := account_sinks_shape env proxy
  rw [h]
  exact ⟨rfl, rfl, rfl, rfl⟩

/-- Batch behaviour of `account_packet`: it never touches `new_conns` or
the id counter; it appends the connection to `conns_updates` and raises the
pending flag exactly when the connection is reportable and not already
pending. -/
theorem account_packet_batch_spec (env : AccountEnv) (id : Nat)
    (tuple : Zdtun5Tuple) (proxy : VpnproxyData) (data : ConnData) :
    (account_packet env id tuple proxy data).1.vpn_dns = proxy.vpn_dns
    ∧ (account_packet env id tuple proxy data).1.new_conns = proxy.new_conns
    ∧ (account_packet env id tuple proxy data).1.incr_id = proxy.incr_id
    ∧ (account_packet env id tuple proxy data).2.incr_id = data.incr_id
    ∧ ((shouldIgnoreConn proxy tuple = true ∨ data.pending_notification = true) →
        (account_packet env id tuple proxy data).1.conns_updates
            = proxy.conns_updates
        ∧ (account_packet env id tuple proxy data).2.pending_notification
            = data.pending_notification)
    ∧ ((shouldIgnoreConn proxy tuple = false
        ∧ data.pending_notification = false) →
        (account_packet env id tuple proxy data).1.conns_updates
            = proxy.conns_updates ++ [id]
        ∧ (account_packet env id tuple proxy data).2.pending_notification
            = true) := by
  obtain ⟨lru, hsh⟩ :=
    account_dpi_proxy_shape env proxy (account_conn_counters env data)
  obtain ⟨l7, i, u, f1, f2, f3, hd⟩ :=
    account_dpi_data_shape env proxy (account_conn_counters env data)
  have hps : (account_dpi env proxy (account_conn_counters env data)).2.pending_notification
      = data.pending_notification := by
    rw [hd]; rcases hft : env.from_tun <;> simp [account_conn_counters, hft]
  have hinc : (account_dpi env proxy (account_conn_counters env data)).2.incr_id
      = data.incr_id := by
    rw [hd]; rcases hft : env.from_tun <;> simp [account_conn_counters, hft]
  have hcond : shouldIgnoreConn
      (account_dpi env proxy (account_conn_counters env data)).1 tuple
      = shouldIgnoreConn proxy tuple :=
    shouldIgnoreConn_vpn_dns_eq _ _ _ (by rw [hsh])
  unfold account_packet
  dsimp only
  by_cases hig : shouldIgnoreConn proxy tuple = true
  · rw [hcond, hig, if_pos rfl, hsh]
    exact ⟨rfl, rfl, rfl, hinc, fun _ => ⟨rfl, hps⟩,
      fun hc => Bool.noConfusion hc.1⟩
  · rw [Bool.not_eq_true] at hig
    rw [hcond, hig, if_neg (by simp)]
    by_cases hpd : (account_dpi env proxy (account_conn_counters env data)).2.pending_notification
        = false
    · rw [if_pos hpd]
      refine ⟨(account_sinks_frame env _).1.trans (by rw [hsh]),
        (account_sinks_frame env _).2.1.trans (by rw [hsh]),
        (account_sinks_frame env _).2.2.2.trans (by rw [hsh]),
        hinc, ?_, fun _ => ⟨(account_sinks_frame env _).2.2.1.trans (by rw [hsh]), rfl⟩⟩
      intro hc
      rcases hc with hc | hc
      · exact Bool.noConfusion hc
      · rw [hps] at hpd
        rw [hc] at hpd
        exact Bool.noConfusion hpd
    · rw [if_neg hpd]
      rw [Bool.not_eq_false] at hpd
      refine ⟨(account_sinks_frame env _).1.trans (by rw [hsh]),
        (account_sinks_frame env _).2.1.trans (by rw [hsh]),
        (account_sinks_frame env _).2.2.2.trans (by rw [hsh]),
        hinc, fun _ => ⟨(account_sinks_frame env _).2.2.1.trans (by rw [hsh]), hps⟩, ?_⟩
      intro hc
      rw [hps] at hpd
      rw [hc.2] at hpd
      exact Bool.noConfusion hpd

/-- Batch behaviour of `destroy_connection`: it never touches `new_conns`
or the id counter; it queues a last update and raises the pending flag
exactly when the connection is reportable and not already pending. -/
theorem destroy_connection_spec (env : CloseEnv) (id : Nat)
    (tuple : Zdtun5Tuple) (proxy : VpnproxyData) (data : ConnData) :
    (destroy_connection env id tuple proxy data).1.vpn_dns = proxy.vpn_dns
    ∧ (destroy_connection env id tuple proxy data).1.new_conns = proxy.new_conns
    ∧ (destroy_connection env id tuple proxy data).1.incr_id = proxy.incr_id
    ∧ (destroy_connection env id tuple proxy data).2.incr_id = data.incr_id
    ∧ ((shouldIgnoreConn proxy tuple = true ∨ data.pending_notification = true) →
        (destroy_connection env id tuple proxy data).1.conns_updates
            = proxy.conns_updates
        ∧ (destroy_connection env id tuple proxy data).2.pending_notification
            = data.pending_notification)
    ∧ ((shouldIgnoreConn proxy tuple = false
        ∧ data.pending_notification = false) →
        (destroy_connection env id tuple proxy data).1.conns_updates
            = proxy.conns_updates ++ [id]
        ∧ (destroy_connection env id tuple proxy data).2.pending_notification
            = true) := by
  obtain ⟨lru, hsh⟩ :=
    end_ndpi_detection_proxy_shape env.dpi.flow env.dpi.guess proxy data
  have hpd : (end_ndpi_detection env.dpi.flow env.dpi.guess proxy data).2.pending_notification
      = data.pending_notification := by
    rcases end_ndpi_detection_data_shape env.dpi.flow env.dpi.guess proxy data
      with h | ⟨i, u, f1, f2, f3, h⟩ <;> rw [h]
  have hinc : (end_ndpi_detection env.dpi.flow env.dpi.guess proxy data).2.incr_id
      = data.incr_id := by
    rcases end_ndpi_detection_data_shape env.dpi.flow env.dpi.guess proxy data
      with h | ⟨i, u, f1, f2, f3, h⟩ <;> rw [h]
  have hcond : shouldIgnoreConn
      (end_ndpi_detection env.dpi.flow env.dpi.guess proxy data).1 tuple
      = shouldIgnoreConn proxy tuple :=
    shouldIgnoreConn_vpn_dns_eq _ _ _ (by rw [hsh])
  unfold destroy_connection
  dsimp only
  by_cases hig : shouldIgnoreConn proxy tuple = true
  · rw [if_neg (fun hc => by
      rw [hcond, hig] at hc
      exact Bool.noConfusion hc.2)]
    refine ⟨by rw [hsh], by rw [hsh], by rw [hsh], hinc,
      fun _ => ⟨by rw [hsh], hpd⟩, fun hc => ?_⟩
    rw [hig] at hc
    exact Bool.noConfusion hc.1
  · rw [Bool.not_eq_true] at hig
    by_cases hpn : data.pending_notification = false
    · rw [if_pos ⟨by
        show (end_ndpi_detection env.dpi.flow env.dpi.guess proxy data).2.pending_notification = false
        rw [hpd]; exact hpn,
        by rw [hcond]; exact hig⟩]
      refine ⟨by rw [hsh], by rw [hsh], by rw [hsh], hinc, fun hc => ?_,
        fun _ => ⟨by rw [hsh], rfl⟩⟩
      rcases hc with hc | hc
      · rw [hig] at hc; exact Bool.noConfusion hc
      · rw [hpn] at hc; exact Bool.noConfusion hc
    · rw [Bool.not_eq_false] at hpn
      rw [if_neg (fun hc => by
        have h1 := hc.1
        rw [show (end_ndpi_detection env.dpi.flow env.dpi.guess proxy data).2.pending_notification
            = data.pending_notification from hpd, hpn] at h1
        exact Bool.noConfusion h1)]
      refine ⟨by rw [hsh], by rw [hsh], by rw [hsh], hinc,
        fun _ => ⟨by rw [hsh], hpd⟩, fun hc => ?_⟩
      rw [hpn] at hc
      exact Bool.noConfusion hc.2

/-- Outcomes of `handle_new_connection`: the gate blocks, the record
allocation fails, or a record is created — with `incr_id` assigned, the
pending flag raised and a `new_conns` entry exactly when the connection is
reportable. -/
theorem handle_new_connection_cases (env : NewConnEnv) (id : Nat)
    (proxy : VpnproxyData) (tuple : Zdtun5Tuple) :
    (∃ p, handle_new_connection env id proxy tuple = (p, none, 1)
      ∧ (check_dns_req_allowed proxy tuple).allowed = false
      ∧ p.last_conn_blocked = true
      ∧ p.vpn_dns = proxy.vpn_dns ∧ p.new_conns = proxy.new_conns
      ∧ p.conns_updates = proxy.conns_updates ∧ p.incr_id = proxy.incr_id
      ∧ p.num_dropped_connections = proxy.num_dropped_connections
      ∧ p.num_dns_requests = proxy.num_dns_requests)
    ∨ (∃ p, handle_new_connection env id proxy tuple = (p, none, 1)
      ∧ (check_dns_req_allowed proxy tuple).allowed = true
      ∧ env.calloc_data_ok = false
      ∧ p.last_conn_blocked = proxy.last_conn_blocked
      ∧ p.vpn_dns = proxy.vpn_dns ∧ p.new_conns = proxy.new_conns
      ∧ p.conns_updates = proxy.conns_updates ∧ p.incr_id = proxy.incr_id
      ∧ p.num_dropped_connections = proxy.num_dropped_connections)
    ∨ (∃ p d, handle_new_connection env id proxy tuple = (p, some d, 0)
      ∧ (check_dns_req_allowed proxy tuple).allowed = true
      ∧ env.calloc_data_ok = true
      ∧ p.vpn_dns = proxy.vpn_dns ∧ p.conns_updates = proxy.conns_updates
      ∧ p.num_dropped_connections = proxy.num_dropped_connections
      ∧ ((shouldIgnoreConn proxy tuple = true
            ∧ p.new_conns = proxy.new_conns ∧ p.incr_id = proxy.incr_id
            ∧ d.pending_notification = false ∧ d.incr_id = none)
        ∨ (shouldIgnoreConn proxy tuple = false
            ∧ p.new_conns = proxy.new_conns ++ [id]
            ∧ p.incr_id = proxy.incr_id + 1
            ∧ d.pending_notification = true
            ∧ d.incr_id = some proxy.incr_id))) := by
  obtain ⟨ds, nds, ndr, hg⟩ := check_dns_req_allowed_proxy_shape proxy tuple
  have hcond : ∀ l, shouldIgnoreConn
      { (check_dns_req_allowed proxy tuple).proxy with ip_to_host := l } tuple
      = shouldIgnoreConn proxy tuple := by
    intro l
    refine shouldIgnoreConn_vpn_dns_eq _ _ _ ?_
    rw [hg]
  unfold handle_new_connection
  dsimp only
  by_cases ha : (check_dns_req_allowed proxy tuple).allowed = false
  · rw [if_pos ha]
    refine Or.inl ⟨_, rfl, ha, rfl, by rw [hg], by rw [hg], by rw [hg],
      by rw [hg], by rw [hg], ?_⟩
    exact check_dns_req_allowed_num_dns_requests proxy tuple ha
  · rw [if_neg ha]
    rw [Bool.not_eq_false] at ha
    by_cases hcal : env.calloc_data_ok = false
    · rw [if_pos hcal]
      exact Or.inr (Or.inl ⟨_, rfl, ha, hcal, by rw [hg], by rw [hg],
        by rw [hg], by rw [hg], by rw [hg], by rw [hg]⟩)
    · rw [if_neg hcal]
      rw [Bool.not_eq_false] at hcal
      by_cases hig : shouldIgnoreConn proxy tuple = true
      · rw [if_neg (by rw [hcond, hig]; simp)]
        refine Or.inr (Or.inr ⟨_, _, rfl, ha, hcal, by rw [hg], by rw [hg],
          by rw [hg], Or.inl ⟨hig, by rw [hg], by rw [hg], ?_, ?_⟩⟩)
        · rcases h1 : env.calloc_flow_ok <;> rcases h2 : env.calloc_src_ok <;>
            rcases h3 : env.calloc_dst_ok <;>
            simp [h1, h2, h3, free_ndpi, conn_data_zero]
        · rcases h1 : env.calloc_flow_ok <;> rcases h2 : env.calloc_src_ok <;>
            rcases h3 : env.calloc_dst_ok <;>
            simp [h1, h2, h3, free_ndpi, conn_data_zero]
      · rw [Bool.not_eq_true] at hig
        rw [if_pos (by rw [hcond, hig])]
        exact Or.inr (Or.inr ⟨_, _, rfl, ha, hcal, by rw [hg], by rw [hg],
          by rw [hg], Or.inr ⟨hig, by rw [hg], by rw [hg], rfl, by rw [hg]⟩⟩)

theorem count_append_one (k a : Nat) (l : List Nat) :
    (l ++ [a]).count k = l.count k + if a = k then 1 else 0 := by
  rw [List.count_append]
  simp [List.count_cons]

/-- Preservation of the machine invariant under the update of a single
record by `account_packet` / `destroy_connection`-style batch behaviour. -/
theorem step_update_inv (st : VpnState) (id : Nat) (r : ConnRec)
    (hfind : st.records.find? (fun r0 => r0.id = id) = some r)
    (p' : VpnproxyData) (d' : ConnData)
    (hvpn : p'.vpn_dns = st.proxy.vpn_dns)
    (hnewc : p'.new_conns = st.proxy.new_conns)
    (hincr' : p'.incr_id = st.proxy.incr_id)
    (hdinc : d'.incr_id = r.data.incr_id)
    (hcase1 : (shouldIgnoreConn st.proxy r.tuple = true
        ∨ r.data.pending_notification = true) →
        p'.conns_updates = st.proxy.conns_updates
        ∧ d'.pending_notification = r.data.pending_notification)
    (hcase2 : (shouldIgnoreConn st.proxy r.tuple = false
        ∧ r.data.pending_notification = false) →
        p'.conns_updates = st.proxy.conns_updates ++ [id]
        ∧ d'.pending_notification = true)
    (h : StateInv st) :
    StateInv { proxy := p', records := updateRecData st.records id d' }
    ∧ (PendingInv st →
        PendingInv { proxy := p', records := updateRecData st.records id d' }) := by
  obtain ⟨hmap, hnew, hupd, hrec, hincr⟩ := h
  have hid : r.id = id := by
    have h0 := List.find?_some hfind
    simpa using h0
  have hmem : r ∈ st.records := List.mem_of_find?_eq_some hfind
  have hgid : ∀ r0 ∈ st.records,
      ((fun r0 => if r0.id = id then { r0 with data := d' } else r0) r0).id
        = r0.id := by
    intro r0 _
    dsimp only
    split <;> rfl
  have hlen : (updateRecData st.records id d').length = st.records.length := by
    unfold updateRecData
    exact List.length_map _ _
  have huniq : ∀ r0 ∈ st.records, r0.id = id → r0 = r := by
    intro r0 hr0 h0
    exact rec_unique st.records hmap r0 r hr0 hmem (by rw [h0, hid])
  -- batch membership facts
  have hcsplit : (p'.conns_updates = st.proxy.conns_updates
        ∧ d'.pending_notification = r.data.pending_notification)
      ∨ (p'.conns_updates = st.proxy.conns_updates ++ [id]
        ∧ d'.pending_notification = true
        ∧ r.data.pending_notification = false) := by
    by_cases hcc : shouldIgnoreConn st.proxy r.tuple = true
        ∨ r.data.pending_notification = true
    · exact Or.inl (hcase1 hcc)
    · rw [not_or, Bool.not_eq_true, Bool.not_eq_true] at hcc
      exact Or.inr ⟨(hcase2 hcc).1, (hcase2 hcc).2, hcc.2⟩
  constructor
  · refine ⟨?_, ?_, ?_, ?_, ?_⟩
    · show (updateRecData st.records id d').map (fun r => r.id)
        = List.range (updateRecData st.records id d').length
      rw [hlen]
      unfold updateRecData
      rw [map_preserve_id _ _ hgid, hmap]
    · intro k hk
      rw [hnewc] at hk
      rw [hlen]
      exact hnew k hk
    · intro k hk
      rw [hlen]
      rcases hcsplit with ⟨hcu, _⟩ | ⟨hcu, _, _⟩
      · rw [hcu] at hk
        exact hupd k hk
      · rw [hcu] at hk
        rcases List.mem_append.mp hk with hk | hk
        · exact hupd k hk
        · have : k = id := by simpa using hk
          rw [this, ← hid]
          exact id_lt_of_mem st.records hmap r hmem
    · intro r'' hr''
      unfold updateRecData at hr''
      obtain ⟨r0, hr0, hr0e⟩ := List.mem_map.mp hr''
      have hshould : ∀ t, shouldIgnoreConn p' t = shouldIgnoreConn st.proxy t :=
        fun t => shouldIgnoreConn_vpn_dns_eq _ _ _ hvpn
      by_cases h0 : r0.id = id
      · have hr0r : r0 = r := huniq r0 hr0 h0
        subst hr0r
        rw [if_pos h0] at hr0e
        subst hr0e
        obtain ⟨hadds, hisome⟩ := hrec r0 hr0
        exact ⟨by dsimp only; rw [hshould]; exact hadds,
          by dsimp only; rw [hshould, hdinc]; exact hisome⟩
      · rw [if_neg h0] at hr0e
        subst hr0e
        obtain ⟨hadds, hisome⟩ := hrec r0 hr0
        have hshould' := hshould r0.tuple
        exact ⟨by rw [hshould']; exact hadds,
          by rw [hshould']; exact hisome⟩
    · show (updateRecData st.records id d').filterMap (fun r => r.data.incr_id)
        = List.range p'.incr_id
      unfold updateRecData
      rw [map_preserve_incr _ _ ?_, hincr, hincr']
      intro r0 hr0
      dsimp only
      split
      · rw [hdinc, huniq r0 hr0 (by assumption)]
      · rfl
  · intro hp0 r'' hr''
    unfold updateRecData at hr''
    obtain ⟨r0, hr0, hr0e⟩ := List.mem_map.mp hr''
    have hcnt := hp0 r0 hr0
    show p'.new_conns.count r''.id + p'.conns_updates.count r''.id = _
    by_cases h0 : r0.id = id
    · have hr0r : r0 = r := huniq r0 hr0 h0
      subst hr0r
      rw [if_pos h0] at hr0e
      subst hr0e
      rcases hcsplit with ⟨hcu, hpe⟩ | ⟨hcu, hpe, hpf⟩
      · rw [hnewc, hcu]
        dsimp only
        rw [hpe]
        exact hcnt
      · dsimp only
        rw [hnewc, hcu, hpe, count_append_one, h0]
        rw [hpf, h0] at hcnt
        simp at hcnt
        rw [hcnt.1, hcnt.2]
        simp
    · rw [if_neg h0] at hr0e
      subst hr0e
      rcases hcsplit with ⟨hcu, _⟩ | ⟨hcu, _, _⟩
      · rw [hnewc, hcu]
        exact hcnt
      · rw [hnewc, hcu, count_append_one, if_neg (fun hc => h0 hc.symm)]
        omega

/-- Outcomes of the new-connection path of a loop iteration. -/
theorem run_tun_new_conn_case_spec (cenv : NewConnEnv)
    (proxy : VpnproxyData) (pkt : ZdtunPkt) (id : Nat) :
    (∃ p, run_tun_new_conn_case cenv proxy pkt id = (p, none)
      ∧ p.vpn_dns = proxy.vpn_dns ∧ p.new_conns = proxy.new_conns
      ∧ p.conns_updates = proxy.conns_updates ∧ p.incr_id = proxy.incr_id)
    ∨ (∃ p d, run_tun_new_conn_case cenv proxy pkt id = (p, some d)
      ∧ p.vpn_dns = proxy.vpn_dns ∧ p.conns_updates = proxy.conns_updates
      ∧ ((shouldIgnoreConn proxy pkt.tuple = true
            ∧ p.new_conns = proxy.new_conns ∧ p.incr_id = proxy.incr_id
            ∧ d.pending_notification = false ∧ d.incr_id = none)
        ∨ (shouldIgnoreConn proxy pkt.tuple = false
            ∧ p.new_conns = proxy.new_conns ++ [id]
            ∧ p.incr_id = proxy.incr_id + 1
            ∧ d.pending_notification = true
            ∧ d.incr_id = some proxy.incr_id))) := by
  unfold run_tun_new_conn_case
  dsimp only
  by_cases hest : is_tcp_established pkt = true
  · rw [if_pos hest]
    exact Or.inl ⟨_, rfl, rfl, rfl, rfl, rfl⟩
  · rw [if_neg hest]
    have hsp : ∀ t, shouldIgnoreConn
        { proxy with last_pkt := some pkt, last_conn_blocked := false } t
        = shouldIgnoreConn proxy t :=
      fun t => shouldIgnoreConn_vpn_dns_eq _ _ _ rfl
    rcases handle_new_connection_cases cenv id
        { proxy with last_pkt := some pkt, last_conn_blocked := false }
        pkt.tuple with
      ⟨p, hp, _, _, h1, h2, h3, h4, _, _⟩ |
      ⟨p, hp, _, _, _, h1, h2, h3, h4, _⟩ |
      ⟨p, d, hp, _, _, h1, h3, _, hcase⟩
    · rw [hp]
      dsimp only
      by_cases hb : p.last_conn_blocked = true
      · rw [if_pos hb]
        exact Or.inl ⟨p, rfl, h1, h2, h3, h4⟩
      · rw [if_neg hb]
        exact Or.inl ⟨_, rfl, h1, h2, h3, h4⟩
    · rw [hp]
      dsimp only
      by_cases hb : p.last_conn_blocked = true
      · rw [if_pos hb]
        exact Or.inl ⟨p, rfl, h1, h2, h3, h4⟩
      · rw [if_neg hb]
        exact Or.inl ⟨_, rfl, h1, h2, h3, h4⟩
    · rw [hp]
      dsimp only
      refine Or.inr ⟨p, d, rfl, h1, h3, ?_⟩
      rw [hsp pkt.tuple] at hcase
      exact hcase

/-- The machine invariant holds initially. -/
theorem vpn_init_inv (cfg : VpnConfig) : StateInv (vpn_init cfg) :=
  ⟨rfl, fun k hk => by simp [vpn_init] at hk,
   fun k hk => by simp [vpn_init] at hk,
   fun r hr => by simp [vpn_init] at hr, rfl⟩

/-- A connections dump with any set of cleared flags preserves the machine
invariant: both batches are truncated, ids and assigned ids are untouched. -/
theorem dump_state_inv (st : VpnState) (C : List Nat) (h : StateInv st) :
    StateInv { proxy := { st.proxy with new_conns := [], conns_updates := [] }
               records := st.records.map (fun r =>
                 if r.id ∈ C then
                   { r with data := { r.data with pending_notification := false } }
                 else r) } := by
  obtain ⟨hmap, hnew, hupd, hrec, hincr⟩ := h
  have hpid : ∀ r0 ∈ st.records, ((fun r =>
      if r.id ∈ C then
        { r with data := { r.data with pending_notification := false } }
      else r) r0).id = r0.id := by
    intro r0 _
    dsimp only
    split <;> rfl
  have hpin : ∀ r0 ∈ st.records, ((fun r =>
      if r.id ∈ C then
        { r with data := { r.data with pending_notification := false } }
      else r) r0).data.incr_id = r0.data.incr_id := by
    intro r0 _
    dsimp only
    split <;> rfl
  refine ⟨?_, ?_, ?_, ?_, ?_⟩
  · rw [List.length_map, map_preserve_id _ _ hpid, hmap]
  · intro k hk
    simp at hk
  · intro k hk
    simp at hk
  · intro r hr
    obtain ⟨r0, hr0, hr0e⟩ := List.mem_map.mp hr
    obtain ⟨ha, hi⟩ := hrec r0 hr0
    by_cases hmem : r0.id ∈ C
    · rw [if_pos hmem] at hr0e
      subst hr0e
      exact ⟨ha, hi⟩
    · rw [if_neg hmem] at hr0e
      subst hr0e
      exact ⟨ha, hi⟩
  · rw [map_preserve_incr _ _ hpin, hincr]

/-- The machine invariant is preserved by every event, and the pending/batch
correspondence is preserved by every event whose dump (if any) has all its
JNI calls succeed. -/
theorem vpn_step_inv (st : VpnState) (e : VpnEvent) (h : StateInv st) :
    StateInv (vpn_step st e)
    ∧ (PendingInv st → dump_ok e = true → PendingInv (vpn_step st e)) := by
  obtain ⟨hmap, hnew, hupd, hrec, hincr⟩ := h
  cases e with
  | openConn pkt cenv =>
    rcases run_tun_new_conn_case_spec cenv st.proxy pkt st.records.length with
      ⟨p, hp, h1, h2, h3, h4⟩ | ⟨p, d, hp, h1, h3, hcase⟩
    · have hstep : vpn_step st (.openConn pkt cenv) = { st with proxy := p } := by
        unfold vpn_step
        dsimp only
        rw [hp]
      rw [hstep]
      constructor
      · refine ⟨hmap, ?_, ?_, ?_, ?_⟩
        · intro k hk
          rw [h2] at hk
          exact hnew k hk
        · intro k hk
          rw [h3] at hk
          exact hupd k hk
        · intro r hr
          obtain ⟨ha, hi⟩ := hrec r hr
          have hsp := shouldIgnoreConn_vpn_dns_eq p st.proxy r.tuple h1
          exact ⟨by rw [hsp]; exact ha, by rw [hsp]; exact hi⟩
        · show st.records.filterMap (fun r => r.data.incr_id) = List.range p.incr_id
          rw [h4]
          exact hincr
      · intro hp0 _ r hr
        show p.new_conns.count r.id + p.conns_updates.count r.id = _
        rw [h2, h3]
        exact hp0 r hr
    · have hstep : vpn_step st (.openConn pkt cenv)
          = { proxy := p
              records := st.records ++
                [{ id := st.records.length, tuple := pkt.tuple, data := d
                   new_adds := if shouldIgnoreConn p pkt.tuple then 0 else 1 }] } := by
        unfold vpn_step
        dsimp only
        rw [hp]
      rw [hstep]
      have hsp : ∀ t, shouldIgnoreConn p t = shouldIgnoreConn st.proxy t :=
        fun t => shouldIgnoreConn_vpn_dns_eq p st.proxy t h1
      have hnotmem : st.records.length ∉ st.proxy.new_conns :=
        fun hc => absurd (hnew _ hc) (Nat.lt_irrefl _)
      have hnotmemu : st.records.length ∉ st.proxy.conns_updates :=
        fun hc => absurd (hupd _ hc) (Nat.lt_irrefl _)
      rcases hcase with ⟨hig, h2, h4, hpnd, hincrd⟩ | ⟨hig, h2, h4, hpnd, hincrd⟩
      -- ignored-connection case
      · constructor
        · refine ⟨?_, ?_, ?_, ?_, ?_⟩
          · simp only [List.map_append, List.length_append, hmap]
            simp [List.range_succ]
          · intro k hk
            rw [h2] at hk
            simp only [List.length_append, List.length_cons, List.length_nil]
            exact Nat.lt_succ_of_lt (hnew k hk)
          · intro k hk
            rw [h3] at hk
            simp only [List.length_append, List.length_cons, List.length_nil]
            exact Nat.lt_succ_of_lt (hupd k hk)
          · intro r hr
            rcases List.mem_append.mp hr with hr | hr
            · obtain ⟨ha, hi⟩ := hrec r hr
              exact ⟨by rw [hsp]; exact ha, by rw [hsp]; exact hi⟩
            · have hre : r = ConnRec.mk st.records.length pkt.tuple d
                  (if shouldIgnoreConn p pkt.tuple then 0 else 1) := by
                simpa using hr
              subst hre
              refine ⟨rfl, ?_⟩
              dsimp only
              rw [hincrd, hsp, hig]
              rfl
          · show (st.records ++ _).filterMap (fun r => r.data.incr_id)
              = List.range p.incr_id
            rw [List.filterMap_append, hincr, h4]
            dsimp only [List.filterMap]
            rw [hincrd]
            simp
        · intro hp0 _ r hr
          show p.new_conns.count r.id + p.conns_updates.count r.id = _
          rcases List.mem_append.mp hr with hr | hr
          · rw [h2, h3]
            exact hp0 r hr
          · have hre : r = ConnRec.mk st.records.length pkt.tuple d
                (if shouldIgnoreConn p pkt.tuple then 0 else 1) := by
              simpa using hr
            subst hre
            rw [h2, h3]
            dsimp only
            rw [List.count_eq_zero.mpr hnotmem, List.count_eq_zero.mpr hnotmemu,
              hpnd]
            simp
      -- reportable-connection case
      · constructor
        · refine ⟨?_, ?_, ?_, ?_, ?_⟩
          · simp only [List.map_append, List.length_append, hmap]
            simp [List.range_succ]
          · intro k hk
            rw [h2] at hk
            simp only [List.length_append, List.length_cons, List.length_nil]
            rcases List.mem_append.mp hk with hk | hk
            · exact Nat.lt_succ_of_lt (hnew k hk)
            · have : k = st.records.length := by simpa using hk
              rw [this]
              exact Nat.lt_succ_self _
          · intro k hk
            rw [h3] at hk
            simp only [List.length_append, List.length_cons, List.length_nil]
            exact Nat.lt_succ_of_lt (hupd k hk)
          · intro r hr
            rcases List.mem_append.mp hr with hr | hr
            · obtain ⟨ha, hi⟩ := hrec r hr
              exact ⟨by rw [hsp]; exact ha, by rw [hsp]; exact hi⟩
            · have hre : r = ConnRec.mk st.records.length pkt.tuple d
                  (if shouldIgnoreConn p pkt.tuple then 0 else 1) := by
                simpa using hr
              subst hre
              refine ⟨rfl, ?_⟩
              dsimp only
              rw [hincrd, hsp, hig]
              rfl
          · show (st.records ++ _).filterMap (fun r => r.data.incr_id)
              = List.range p.incr_id
            rw [List.filterMap_append, hincr, h4]
            dsimp only [List.filterMap]
            rw [hincrd]
            simp [List.range_succ]
        · intro hp0 _ r hr
          show p.new_conns.count r.id + p.conns_updates.count r.id = _
          rcases List.mem_append.mp hr with hr | hr
          · have hlt : r.id < st.records.length :=
              id_lt_of_mem st.records hmap r hr
            rw [h2, h3, count_append_one,
              if_neg (fun hc0 => absurd (hc0 ▸ hlt) (Nat.lt_irrefl _))]
            have hc := hp0 r hr
            omega
          · have hre : r = ConnRec.mk st.records.length pkt.tuple d
                (if shouldIgnoreConn p pkt.tuple then 0 else 1) := by
              simpa using hr
            subst hre
            rw [h2, h3]
            dsimp only
            rw [count_append_one, List.count_eq_zero.mpr hnotmem,
              List.count_eq_zero.mpr hnotmemu, hpnd]
            simp
  | acctPkt id env =>
    rcases hfind : st.records.find? (fun r0 => r0.id = id) with _ | r
    · have hstep : vpn_step st (.acctPkt id env) = st := by
        unfold vpn_step
        dsimp only
        rw [hfind]
      rw [hstep]
      exact ⟨⟨hmap, hnew, hupd, hrec, hincr⟩, fun hp0 _ => hp0⟩
    · have hstep : vpn_step st (.acctPkt id env)
          = { proxy := (account_packet env id r.tuple st.proxy r.data).1
              records := updateRecData st.records id
                (account_packet env id r.tuple st.proxy r.data).2 } := by
        unfold vpn_step
        dsimp only
        rw [hfind]
      rw [hstep]
      obtain ⟨hv, hn, hi, hdi, hc1, hc2⟩ :=
        account_packet_batch_spec env id r.tuple st.proxy r.data
      have hres := step_update_inv st id r hfind _ _ hv hn hi hdi hc1 hc2
        ⟨hmap, hnew, hupd, hrec, hincr⟩
      exact ⟨hres.1, fun hp0 _ => hres.2 hp0⟩
  | forwardFail id env =>
    rcases hfind : st.records.find? (fun r0 => r0.id = id) with _ | r
    · have hstep : vpn_step st (.forwardFail id env) = st := by
        unfold vpn_step
        dsimp only
        rw [hfind]
      rw [hstep]
      exact ⟨⟨hmap, hnew, hupd, hrec, hincr⟩, fun hp0 _ => hp0⟩
    · have hstep : vpn_step st (.forwardFail id env)
          = { proxy := (destroy_connection env id r.tuple
                { st.proxy with num_dropped_connections :=
                    st.proxy.num_dropped_connections + 1 } r.data).1
              records := updateRecData st.records id
                (destroy_connection env id r.tuple
                  { st.proxy with num_dropped_connections :=
                      st.proxy.num_dropped_connections + 1 } r.data).2 } := by
        unfold vpn_step
        dsimp only
        rw [hfind]
      rw [hstep]
      obtain ⟨hv, hn, hi, hdi, hc1, hc2⟩ :=
        destroy_connection_spec env id r.tuple
          { st.proxy with num_dropped_connections :=
              st.proxy.num_dropped_connections + 1 } r.data
      have hres := step_update_inv st id r hfind _ _ hv hn hi hdi hc1 hc2
        ⟨hmap, hnew, hupd, hrec, hincr⟩
      exact ⟨hres.1, fun hp0 _ => hres.2 hp0⟩
  | closeConn id env =>
    rcases hfind : st.records.find? (fun r0 => r0.id = id) with _ | r
    · have hstep : vpn_step st (.closeConn id env) = st := by
        unfold vpn_step
        dsimp only
        rw [hfind]
      rw [hstep]
      exact ⟨⟨hmap, hnew, hupd, hrec, hincr⟩, fun hp0 _ => hp0⟩
    · have hstep : vpn_step st (.closeConn id env)
          = { proxy := (destroy_connection env id r.tuple st.proxy r.data).1
              records := updateRecData st.records id
                (destroy_connection env id r.tuple st.proxy r.data).2 } := by
        unfold vpn_step
        dsimp only
        rw [hfind]
      rw [hstep]
      obtain ⟨hv, hn, hi, hdi, hc1, hc2⟩ :=
        destroy_connection_spec env id r.tuple st.proxy r.data
      have hres := step_update_inv st id r hfind _ _ hv hn hi hdi hc1 hc2
        ⟨hmap, hnew, hupd, hrec, hincr⟩
      exact ⟨hres.1, fun hp0 _ => hres.2 hp0⟩
  | connDump fail =>
    by_cases hemp : st.proxy.new_conns = [] ∧ st.proxy.conns_updates = []
    · have hstep : vpn_step st (.connDump fail) = st := by
        show sendConnectionsDump fail st = st
        unfold sendConnectionsDump
        rw [if_pos hemp]
      rw [hstep]
      exact ⟨⟨hmap, hnew, hupd, hrec, hincr⟩, fun hp0 _ => hp0⟩
    · cases fail with
      | some k =>
        have hstep : vpn_step st (.connDump (some k))
            = { proxy := { st.proxy with new_conns := [], conns_updates := [] }
                records := st.records.map (fun r =>
                  if r.id ∈ (st.proxy.new_conns ++ st.proxy.conns_updates).take k
                  then { r with data :=
                          { r.data with pending_notification := false } }
                  else r) } := by
          show sendConnectionsDump (some k) st = _
          unfold sendConnectionsDump
          rw [if_neg hemp]
        rw [hstep]
        refine ⟨dump_state_inv st _ ⟨hmap, hnew, hupd, hrec, hincr⟩, ?_⟩
        intro _ hok
        simp [dump_ok] at hok
      | none =>
        have hstep : vpn_step st (.connDump none)
            = { proxy := { st.proxy with new_conns := [], conns_updates := [] }
                records := st.records.map (fun r =>
                  if r.id ∈ st.proxy.new_conns ++ st.proxy.conns_updates then
                    { r with data :=
                        { r.data with pending_notification := false } }
                  else r) } := by
          show sendConnectionsDump none st = _
          unfold sendConnectionsDump
          rw [if_neg hemp]
        rw [hstep]
        refine ⟨dump_state_inv st _ ⟨hmap, hnew, hupd, hrec, hincr⟩, ?_⟩
        intro hp0 _ r hr
        obtain ⟨r0, hr0, hr0e⟩ := List.mem_map.mp hr
        have hc := hp0 r0 hr0
        by_cases hmem : r0.id ∈ st.proxy.new_conns ++ st.proxy.conns_updates
        · rw [if_pos hmem] at hr0e
          subst hr0e
          simp
        · rw [if_neg hmem] at hr0e
          subst hr0e
          rw [List.mem_append, not_or] at hmem
          have hz1 : st.proxy.new_conns.count r0.id = 0 :=
            List.count_eq_zero.mpr hmem.1
          have hz2 : st.proxy.conns_updates.count r0.id = 0 :=
            List.count_eq_zero.mpr hmem.2
          rw [hz1, hz2] at hc
          dsimp only
          exact hc

/-- The machine invariant holds in every reachable state. -/
theorem vpn_run_inv (cfg : VpnConfig) (es : List VpnEvent) :
    StateInv (vpn_run cfg es) := by
  suffices h : ∀ (es0 : List VpnEvent) (st : VpnState), StateInv st →
      StateInv (es0.foldl vpn_step st) by
    exact h es (vpn_init cfg) (vpn_init_inv cfg)
  intro es0
  induction es0 with
  | nil =>
    intro st h
    exact h
  | cons e t ih =>
    intro st h
    exact ih (vpn_step st e) (vpn_step_inv st e h).1

/-- C2 (confirmed): in every reachable state of a run, the `incr_id` values
assigned to connection records, read in order of first appearance, are
exactly `0, 1, ..., incr_id - 1` — they start at 0, grow by exactly 1 per
assignment, and each reportable connection holds exactly one of them —
while a connection filtered by the reportability filter never has an
`incr_id` assigned. -/
theorem C2_incr_id_dense (cfg : VpnConfig) (es : List VpnEvent) :
    (vpn_run cfg es).records.filterMap (fun r => r.data.incr_id)
      = List.range (vpn_run cfg es).proxy.incr_id
    ∧ ∀ r ∈ (vpn_run cfg es).records,
        r.data.incr_id.isSome
          = !shouldIgnoreConn (vpn_run cfg es).proxy r.tuple := by
  obtain ⟨hmap, hnew, hupd, hrec, hincr⟩ := vpn_run_inv cfg es
  exact ⟨hincr, fun r hr => (hrec r hr).2⟩

/-! # C8: pending notifications and batches -/

/-- C7 (confirmed): when the DNS gate blocks a new connection, no record is
created, the dropped-connection counter is not incremented, the DNS-request
counter is untouched and nothing is staged in either batch; the drop
counter is incremented on a failed lookup/creation exactly when the packet
was not established TCP, the gate allowed the connection, and the record
allocation failed — never for a gate-blocked connection or an
established-TCP arrival. -/
theorem C7_blocked_conn_spec (cenv : NewConnEnv) (proxy : VpnproxyData)
    (pkt : ZdtunPkt) (id : Nat) :
    ((is_tcp_established pkt = false
      ∧ (check_dns_req_allowed
          { proxy with last_pkt := some pkt, last_conn_blocked := false }
          pkt.tuple).allowed = false) →
      (run_tun_new_conn_case cenv proxy pkt id).2 = none
      ∧ (run_tun_new_conn_case cenv proxy pkt id).1.num_dropped_connections
          = proxy.num_dropped_connections
      ∧ (run_tun_new_conn_case cenv proxy pkt id).1.new_conns = proxy.new_conns
      ∧ (run_tun_new_conn_case cenv proxy pkt id).1.conns_updates
          = proxy.conns_updates
      ∧ (run_tun_new_conn_case cenv proxy pkt id).1.incr_id = proxy.incr_id
      ∧ (run_tun_new_conn_case cenv proxy pkt id).1.num_dns_requests
          = proxy.num_dns_requests)
    ∧ ((run_tun_new_conn_case cenv proxy pkt id).1.num_dropped_connections
          = proxy.num_dropped_connections + 1 ↔
        (is_tcp_established pkt = false
          ∧ (check_dns_req_allowed
              { proxy with last_pkt := some pkt, last_conn_blocked := false }
              pkt.tuple).allowed = true
          ∧ cenv.calloc_data_ok = false)) := by
  unfold run_tun_new_conn_case
  dsimp only
  by_cases hest : is_tcp_established pkt = true
  · rw [if_pos hest]
    refine ⟨fun hc => absurd hest (by rw [hc.1]; simp), ?_⟩
    constructor
    · intro hc
      exact absurd hc (by simp)
    · intro hc
      rw [hest] at hc
      exact absurd hc.1 (by simp)
  · rw [if_neg hest]
    rw [Bool.not_eq_true] at hest
    rcases handle_new_connection_cases cenv id
        { proxy with last_pkt := some pkt, last_conn_blocked := false }
        pkt.tuple with
      ⟨p, hp, hal, hb, _, hn, hcu, hi, hdrp, hdns⟩ |
      ⟨p, hp, hal, hcf, hlb, _, hn, hcu, hi, hdrp⟩ |
      ⟨p, d, hp, hal, hcd, _, hcu, hdrp, hcase⟩
    · rw [hp]
      dsimp only
      rw [if_pos hb]
      refine ⟨fun _ => ⟨rfl, hdrp, hn, hcu, hi, hdns⟩, ?_⟩
      constructor
      · intro hc
        rw [hdrp] at hc
        dsimp only at hc
        omega
      · intro hc
        rw [hal] at hc
        exact absurd hc.2.1 (by simp)
    · rw [hp]
      dsimp only
      rw [if_neg (by rw [hlb]; simp)]
      refine ⟨fun hc => absurd hal (by rw [hc.2]; simp), ?_⟩
      constructor
      · intro _
        exact ⟨hest, hal, hcf⟩
      · intro _
        dsimp only
        rw [hdrp]
    · rw [hp]
      dsimp only
      refine ⟨fun hc => absurd hal (by rw [hc.2]; simp), ?_⟩
      constructor
      · intro hc
        rw [hdrp] at hc
        dsimp only at hc
        omega
      · intro hc
        rw [hcd] at hc
        exact absurd hc.2.2 (by simp)

/-- C7 witness: a DoT SYN towards 1.1.1.1:853 is blocked by the gate,
creates no record and leaves the drop counter untouched. -/
theorem C7_blocked_conn_spec_witness :
    (run_tun_new_conn_case cenv_fix proxy_fix pkt_dot 0).2 = none
    ∧ (run_tun_new_conn_case cenv_fix proxy_fix pkt_dot 0).1.num_dropped_connections
        = proxy_fix.num_dropped_connections :=
  ⟨((C7_blocked_conn_spec cenv_fix proxy_fix pkt_dot 0).1 (by decide)).1,
   ((C7_blocked_conn_spec cenv_fix proxy_fix pkt_dot 0).1 (by decide)).2.1⟩

/-- C9 witness: a forced dump selects the stats task. -/
theorem C9_housekeeping_spec_witness :
    run_tun_housekeeping hk_fix = some HkTask.stats :=
  (C9_housekeeping_spec hk_fix).1.mpr (Or.inr rfl)

/-- C10 witness: the frame theorem applied to a packet on an ignored
connection (tun-side DNS address, port 12345). -/
theorem C10_ignored_conn_frame_witness :
    (account_packet acct_env_fix 0 tuple_ignored proxy_fix conn_data_zero).1.capture_stats
        = proxy_fix.capture_stats
    ∧ (account_packet acct_env_fix 0 tuple_ignored proxy_fix conn_data_zero).1.conns_updates
        = proxy_fix.conns_updates :=
  ⟨(C10_ignored_conn_frame acct_env_fix 0 tuple_ignored proxy_fix conn_data_zero
      (by decide)).2.1,
   (C10_ignored_conn_frame acct_env_fix 0 tuple_ignored proxy_fix conn_data_zero
      (by decide)).2.2.2.1⟩

end Vpnproxy
